import Mathlib

/-!
# KlipperAPI: a shallow embedding of the Moonraker client

The development follows `src/KlipperAPI.h` and `src/KlipperAPI.cpp`.

* Text (`String`, `const char*`) is a list of characters, one per byte.
* The transport (`Client`) is an external collaborator.  Its behaviour
  during one request cycle is given by a `ClientScript`: the answer of
  `connect`, the lines that successive `readStringUntil` calls return
  while the read loop's guard `available() && millis() < timeout` holds,
  and the answer of `connected()` when the connection is closed.
* The JSON decoder (ArduinoJson) is an external collaborator as well; it is
  a parameter of the query operations (`JsonLibrary`).
* The value of a `float` is a rational (`CFloat`); every `float`
  operation of the source is the exact operation followed by the rounding
  to the nearest binary32 value (`roundF32`).  A `float` argument of the
  caller is a `FloatValue`, which also has the negative zero, the
  infinities and the NaN.  `snprintf` yields the formatted text cut to the
  buffer size; `%.1f` rounds to tenths.
-/

namespace KlipperAPI

/-! ## Text -/

/-- Text of an Arduino `String` or of a C string: its bytes, without the
terminating NUL. -/
abbrev Bytes := List Char

/-- Line feed, the terminator handed to `readStringUntil`. -/
def LF : Char := Char.ofNat 10

/-- Carriage return. -/
def CR : Char := Char.ofNat 13

/-- Position of the first occurrence of `ch` (C `strchr`, as an offset). -/
def strchr : Bytes → Char → Option Nat
  | [], _ => none
  | c :: cs, ch => if c = ch then some 0 else (strchr cs ch).map (· + 1)

/-- Arduino `String::indexOf(char ch, unsigned int fromIndex)`: `-1` when
`fromIndex` is past the end or `ch` does not occur from there on. -/
def indexOf (s : Bytes) (ch : Char) (fromIndex : Nat) : Int :=
  if fromIndex ≥ s.length then -1
  else
    match strchr (s.drop fromIndex) ch with
    | none => -1
    | some i => ((fromIndex + i : Nat) : Int)

/-- Arduino `String::substring(left, right)`: the bounds are put in order,
a start past the end gives the empty text, the end is clamped. -/
def substring (s : Bytes) (left right : Nat) : Bytes :=
  let l := if left > right then right else left
  let r := if left > right then left else right
  if l ≥ s.length then []
  else
    let r := if r > s.length then s.length else r
    (s.drop l).take (r - l)

/-- White space in the sense of C `isspace`. -/
def isSpace (c : Char) : Bool :=
  c.toNat = 32 || (9 ≤ c.toNat && c.toNat ≤ 13)

/-- Decimal digit in the sense of C `isdigit`. -/
def isDigit (c : Char) : Bool :=
  48 ≤ c.toNat && c.toNat ≤ 57

/-- Accumulates the leading decimal digits of a text onto `acc`. -/
def atolDigits : Bytes → Nat → Nat
  | [], acc => acc
  | c :: cs, acc => if isDigit c then atolDigits cs (acc * 10 + (c.toNat - 48)) else acc

/-- Sign and digits of C `atol`, after the leading white space. -/
def atolSigned : Bytes → Int
  | [] => 0
  | c :: cs =>
    if c = '-' then -((atolDigits cs 0 : Nat) : Int)
    else if c = '+' then ((atolDigits cs 0 : Nat) : Int)
    else ((atolDigits (c :: cs) 0 : Nat) : Int)

/-- C `atol`: leading white space is skipped, then an optional sign and the
longest run of decimal digits is read (values beyond the range of `long`
are outside the model). -/
def atol : Bytes → Int
  | [] => 0
  | c :: cs => if isSpace c then atol cs else atolSigned (c :: cs)

/-- Arduino `String::toInt()`, which is `atol` on the buffer. -/
def toInt (s : Bytes) : Int := atol s

/-- Arduino `String::toLowerCase()`: `tolower` on every byte. -/
def toLowerCase (s : Bytes) : Bytes := s.map Char.toLower

/-- Arduino `String::toCharArray(buf, bufsize)`: at most `bufsize - 1` bytes
are copied and the buffer is NUL-terminated; the result is the text the
buffer then holds. -/
def toCharArray (s : Bytes) (bufsize : Nat) : Bytes := s.take (bufsize - 1)

/-- Decimal rendering of an unsigned number, as `String(n)` prints it. -/
def decimal (n : Nat) : Bytes := Nat.toDigits 10 n

/-! ## Constants of `KlipperAPI.h` -/

def KAPI_TIMEOUT : Nat := 5000
def POSTDATA_SIZE : Nat := 256
def JSONDOCUMENT_SIZE : Nat := 2048
def USER_AGENT : Bytes := "KlipperAPI/1.0.0 (Arduino)".toList
def maxMessageLength : Nat := 1500

/-! ## Status line -/

/-- `KlipperApi::extractHttpCode` (KlipperAPI.cpp 171-182). -/
def extractHttpCode (statusCode : Bytes) (_body : Bytes) : Int :=
  if statusCode.length > 12 then
    let firstSpace := indexOf statusCode ' ' 0
    let secondSpace := indexOf statusCode ' ' (firstSpace + 1).toNat
    if firstSpace ≠ -1 ∧ secondSpace ≠ -1 then
      let code := substring statusCode (firstSpace + 1).toNat secondSpace.toNat
      toInt code
    else 0
  else 0

/-- The read loop of `sendRequestToMoonraker` (KlipperAPI.cpp 138-155) over
the lines the stream delivers; the state is `headerComplete`, `headers` and
`response`, the result is the final `(headers, response)`. -/
def readLoop : List Bytes → Bool → Bytes → Bytes → Bytes × Bytes
  | [], _, headers, response => (headers, response)
  | line :: rest, headerComplete, headers, response =>
    if !headerComplete then
      let headers := headers ++ (line ++ [LF])
      if line.length ≤ 1 then readLoop rest true headers response
      else readLoop rest headerComplete headers response
    else
      let response := response ++ line
      if response.length > maxMessageLength then (headers, response)
      else readLoop rest headerComplete headers response

/-! ## Snapshot structures of `KlipperAPI.h` -/

/-- The value of a finite C `float`, as a rational. -/
abbrev CFloat := Rat

/-- A `float` as a caller may pass it: a finite value, the negative zero
(equal to zero in every comparison, printed with its sign), an infinity or
a NaN. -/
inductive FloatValue where
  | finite (q : CFloat)
  | negativeZero
  | infinity (negative : Bool)
  | notANumber

/-- The sign bit of a `float`, which `printf` prints as `-`. -/
def FloatValue.signBit : FloatValue → Bool
  | FloatValue.finite q => decide (q < 0)
  | FloatValue.negativeZero => true
  | FloatValue.infinity negative => negative
  | FloatValue.notANumber => false

/-- The comparison `value >= bound` of a `float` with a finite bound; every
comparison with a NaN is false. -/
def FloatValue.ge (value : FloatValue) (bound : CFloat) : Bool :=
  match value with
  | FloatValue.finite q => decide (q ≥ bound)
  | FloatValue.negativeZero => decide ((0 : CFloat) ≥ bound)
  | FloatValue.infinity negative => !negative
  | FloatValue.notANumber => false

/-- The comparison `value <= bound` of a `float` with a finite bound. -/
def FloatValue.le (value : FloatValue) (bound : CFloat) : Bool :=
  match value with
  | FloatValue.finite q => decide (q ≤ bound)
  | FloatValue.negativeZero => decide ((0 : CFloat) ≤ bound)
  | FloatValue.infinity negative => negative
  | FloatValue.notANumber => false

/-- Conversion of a `float` to an integer type: the fraction is discarded
(rounding toward zero). -/
def truncate (q : CFloat) : Int := if 0 ≤ q then ⌊q⌋ else ⌈q⌉

/-- The cast `(uint16_t)` of a `float` (values out of range wrap in the model). -/
def toUInt16 (q : CFloat) : Nat := (truncate q % 65536).toNat

/-- The cast `(int16_t)` of a `float` (values out of range wrap in the model). -/
def toInt16 (q : CFloat) : Int := (truncate q + 32768) % 65536 - 32768

/-! ## Single-precision arithmetic -/

/-- Rounding of a non-negative value to the nearest integer, ties to the
even neighbour. -/
def roundHalfEven (q : CFloat) : Nat :=
  let whole := ⌊q⌋.toNat
  let fraction := q - ⌊q⌋
  if fraction < 1 / 2 then whole
  else if fraction > 1 / 2 then whole + 1
  else if whole % 2 = 0 then whole
  else whole + 1

/-- The exponent of the spacing of the binary32 values around `q`: a normal
value carries 24 significant bits, values below `2 ^ -126` are subnormal and
share the spacing `2 ^ -149`. -/
def spacingExponent (q : CFloat) : Int := max (Int.log 2 |q|) (-126) - 23

/-- Rounding of a real value to the nearest binary32 value, ties to the even
significand, the rounding every `float` operation ends with (results beyond
the largest finite `float` are outside the model). -/
def roundF32 (q : CFloat) : CFloat :=
  let spacing : CFloat := 2 ^ spacingExponent q
  let steps := roundHalfEven (|q| / spacing)
  if q < 0 then -(steps * spacing) else steps * spacing

/-- Conversion of an unsigned integer to `float`. -/
def floatOfNat (n : Nat) : CFloat := roundF32 n

/-- Division of two `float` values. -/
def floatDiv (a b : CFloat) : CFloat := roundF32 (a / b)

/-- Difference of two `float` values. -/
def floatSub (a b : CFloat) : CFloat := roundF32 (a - b)

/-- Product of two `float` values. -/
def floatMul (a b : CFloat) : CFloat := roundF32 (a * b)

/-- A non-negative binary32 value: at most 24 significant bits on a grid not
finer than `2 ^ -149`. -/
def Representable (y : CFloat) : Prop :=
  ∃ (k : Nat) (g : Int), -149 ≤ g ∧ k ≤ 2 ^ 24 ∧ y = k * 2 ^ g

/-- `PrinterStateFlags` (KlipperAPI.h 27-36); a one-bit field is a `Bool`. -/
structure PrinterStateFlags where
  ready : Bool
  error : Bool
  paused : Bool
  printing : Bool
  standby : Bool
  shutdown : Bool
  startup : Bool
  reserved : Bool
  deriving DecidableEq, Repr

/-- `TemperatureData` (KlipperAPI.h 39-43). -/
structure TemperatureData where
  current : CFloat
  target : CFloat
  power : Int
  deriving DecidableEq, Repr

/-- `PrinterStatistics` (KlipperAPI.h 46-71); `char` buffers hold their text. -/
structure PrinterStatistics where
  state : Bytes
  stateFlags : PrinterStateFlags
  extruder : TemperatureData
  extruder1 : TemperatureData
  heatedBed : TemperatureData
  positionX : CFloat
  positionY : CFloat
  positionZ : CFloat
  positionE : CFloat
  speedFactor : Nat
  flowFactor : Nat
  hasExtruder : Bool
  hasExtruder1 : Bool
  hasHeatedBed : Bool
  isHomed : Bool
  reserved : Nat
  deriving DecidableEq, Repr

/-- `PrintJobInfo` (KlipperAPI.h 74-93). -/
structure PrintJobInfo where
  filename : Bytes
  state : Bytes
  progress : CFloat
  printTime : Nat
  estimatedTime : Nat
  timeLeft : Nat
  fileSize : Nat
  printedBytes : Nat
  isPrinting : Bool
  isPaused : Bool
  isComplete : Bool
  isCancelled : Bool
  hasError : Bool
  reserved : Nat
  deriving DecidableEq, Repr

/-- `ServerInfo` (KlipperAPI.h 96-101). -/
structure ServerInfo where
  klipperVersion : Bytes
  moonrakerVersion : Bytes
  hostname : Bytes
  port : Nat
  deriving DecidableEq, Repr

/-- `MotionLimits` (KlipperAPI.h 104-113). -/
structure MotionLimits where
  maxVelocity : CFloat
  maxAcceleration : CFloat
  squareCornerVelocity : CFloat
  xMin : CFloat
  xMax : CFloat
  yMin : CFloat
  yMax : CFloat
  zMin : CFloat
  zMax : CFloat
  deriving DecidableEq, Repr

/-- Arduino `IPAddress`: four octets. -/
structure IPAddress where
  a : Nat
  b : Nat
  c : Nat
  d : Nat
  deriving DecidableEq, Repr

/-- `IPAddress::toString()`: dotted decimal. -/
def IPAddress.toString (ip : IPAddress) : Bytes :=
  decimal ip.a ++ ".".toList ++ decimal ip.b ++ ".".toList ++ decimal ip.c ++ ".".toList
    ++ decimal ip.d

/-- The members of class `KlipperApi` (KlipperAPI.h 165-185).  `_client` is
`true` when the pointer is not null; `_moonrakerHost` is `none` for a null
pointer. -/
structure KlipperApi where
  printerStats : PrinterStatistics
  printJob : PrintJobInfo
  serverInfo : ServerInfo
  motionLimits : MotionLimits
  _debug : Bool
  httpStatusCode : Int
  httpErrorBody : Bytes
  _client : Bool
  _apiKey : Bytes
  _moonrakerIp : IPAddress
  _usingIpAddress : Bool
  _moonrakerHost : Option Bytes
  _moonrakerPort : Nat
  _hasApiKey : Bool
  deriving DecidableEq, Repr

/-- `apiKey != nullptr && strlen(apiKey) > 0`. -/
def keyGiven : Option Bytes → Bool
  | none => false
  | some key => decide (key.length > 0)

/-- `KlipperApi::init` with an IP address (KlipperAPI.cpp 31-41). -/
def KlipperApi.initIp (self : KlipperApi) (moonrakerIp : IPAddress) (moonrakerPort : Nat)
    (apiKey : Option Bytes) : KlipperApi :=
  { self with
    _client := true
    _moonrakerIp := moonrakerIp
    _moonrakerPort := moonrakerPort
    _usingIpAddress := true
    _hasApiKey := keyGiven apiKey
    _apiKey := if keyGiven apiKey then apiKey.getD [] else self._apiKey
    httpStatusCode := 0 }

/-- `KlipperApi::init` with a host name (KlipperAPI.cpp 44-54). -/
def KlipperApi.initHost (self : KlipperApi) (moonrakerHost : Option Bytes) (moonrakerPort : Nat)
    (apiKey : Option Bytes) : KlipperApi :=
  { self with
    _client := true
    _moonrakerHost := moonrakerHost
    _moonrakerPort := moonrakerPort
    _usingIpAddress := false
    _hasApiKey := keyGiven apiKey
    _apiKey := if keyGiven apiKey then apiKey.getD [] else self._apiKey
    httpStatusCode := 0 }

/-- The default member initialisers of the class and the default
constructors of its `String` and `IPAddress` members, applied to the storage
an object is built in.  The snapshot structures have no initialiser: they
keep whatever the storage held. -/
def KlipperApi.memberInit (storage : KlipperApi) : KlipperApi :=
  { storage with
    _debug := false
    httpStatusCode := 0
    httpErrorBody := []
    _apiKey := []
    _moonrakerIp := ⟨0, 0, 0, 0⟩ }

/-- The default constructor (KlipperAPI.cpp 11-18). -/
def KlipperApi.new (storage : KlipperApi) : KlipperApi :=
  { storage.memberInit with
    _client := false
    _usingIpAddress := false
    _moonrakerHost := none
    _moonrakerPort := 80
    _hasApiKey := false
    httpStatusCode := 0 }

/-- The constructor taking an IP address (KlipperAPI.cpp 21-23). -/
def KlipperApi.newIp (storage : KlipperApi) (moonrakerIp : IPAddress) (moonrakerPort : Nat)
    (apiKey : Option Bytes) : KlipperApi :=
  storage.memberInit.initIp moonrakerIp moonrakerPort apiKey

/-- The constructor taking a host name (KlipperAPI.cpp 26-28). -/
def KlipperApi.newHost (storage : KlipperApi) (moonrakerHost : Option Bytes)
    (moonrakerPort : Nat) (apiKey : Option Bytes) : KlipperApi :=
  storage.memberInit.initHost moonrakerHost moonrakerPort apiKey

/-! ## Transport -/

/-- What the `Client` does during one request cycle: the answer of
`connect`, the lines returned by the successive `readStringUntil` calls made
while `available() && millis() < timeout` holds, and the answer of
`connected()` when the connection is closed. -/
structure ClientScript where
  connect : Bool
  lines : List Bytes
  connected : Bool
  deriving DecidableEq, Repr

/-- A call the library makes on the `Client`. -/
inductive ClientCall where
  | connect
  | print (request : Bytes)
  | stop
  deriving DecidableEq, Repr

/-- What `sendRequestToMoonraker` leaves behind: the returned text, the
object afterwards, and the calls made on the `Client`. -/
structure Reply where
  response : Bytes
  api : KlipperApi
  calls : List ClientCall
  deriving DecidableEq, Repr

/-- What a `bool` operation leaves behind. -/
structure Outcome where
  ok : Bool
  api : KlipperApi
  calls : List ClientCall
  deriving DecidableEq, Repr

/-- The end of a header line. -/
def CRLF : Bytes := [CR, LF]

/-- The request text built by `sendRequestToMoonraker`
(KlipperAPI.cpp 94-121); `data` is `none` for a null pointer. -/
def buildRequest (self : KlipperApi) (method endpoint : Bytes) (data : Option Bytes) : Bytes :=
  let request := method ++ " ".toList ++ endpoint ++ (" HTTP/1.1".toList ++ CRLF)
  let request :=
    if self._usingIpAddress then
      request ++ ("Host: ".toList ++ self._moonrakerIp.toString ++ ":".toList
        ++ decimal self._moonrakerPort ++ CRLF)
    else
      request ++ ("Host: ".toList ++ self._moonrakerHost.getD [] ++ ":".toList
        ++ decimal self._moonrakerPort ++ CRLF)
  let request := request ++ ("User-Agent: ".toList ++ USER_AGENT ++ CRLF)
  let request := request ++ ("Connection: close".toList ++ CRLF)
  let request :=
    if self._hasApiKey then request ++ ("X-Api-Key: ".toList ++ self._apiKey ++ CRLF)
    else request
  let request :=
    match data with
    | some d =>
      if d.length > 0 then
        (request ++ ("Content-Type: application/json".toList ++ CRLF))
          ++ ("Content-Length: ".toList ++ decimal d.length ++ CRLF)
      else request
    | none => request
  let request := request ++ CRLF
  match data with
  | some d => if d.length > 0 then request ++ d else request
  | none => request

/-- `KlipperApi::closeClient` (KlipperAPI.cpp 185-189): the calls it makes. -/
def closeClient (self : KlipperApi) (net : ClientScript) : List ClientCall :=
  if self._client && net.connected then [ClientCall.stop] else []

/-- `KlipperApi::sendRequestToMoonraker` (KlipperAPI.cpp 72-168). -/
def sendRequestToMoonraker (self : KlipperApi) (net : ClientScript) (method endpoint : Bytes)
    (data : Option Bytes) : Reply :=
  if !self._client then ⟨[], self, []⟩
  else if !net.connect then ⟨[], self, [ClientCall.connect]⟩
  else
    let request := buildRequest self method endpoint data
    let read := readLoop net.lines false [] []
    let self := { self with httpStatusCode := extractHttpCode read.1 read.2 }
    ⟨read.2, self, [ClientCall.connect, ClientCall.print request] ++ closeClient self net⟩

/-- `KlipperApi::sendGetToMoonraker` (KlipperAPI.cpp 57-59). -/
def sendGetToMoonraker (self : KlipperApi) (net : ClientScript) (endpoint : Bytes) : Reply :=
  sendRequestToMoonraker self net "GET".toList endpoint none

/-- `KlipperApi::sendPostToMoonraker` (KlipperAPI.cpp 62-64). -/
def sendPostToMoonraker (self : KlipperApi) (net : ClientScript) (endpoint postData : Bytes) :
    Reply :=
  sendRequestToMoonraker self net "POST".toList endpoint (some postData)

/-- The tail shared by the command operations: `return (httpStatusCode == 200);`. -/
def statusIs200 (r : Reply) : Outcome :=
  ⟨decide (r.api.httpStatusCode = 200), r.api, r.calls⟩

/-- `KlipperApi::pausePrint` (KlipperAPI.cpp 415-418). -/
def pausePrint (self : KlipperApi) (net : ClientScript) : Outcome :=
  statusIs200 (sendPostToMoonraker self net "/printer/print/pause".toList "\x7b\x7d".toList)

/-- `KlipperApi::resumePrint` (KlipperAPI.cpp 421-424). -/
def resumePrint (self : KlipperApi) (net : ClientScript) : Outcome :=
  statusIs200 (sendPostToMoonraker self net "/printer/print/resume".toList "\x7b\x7d".toList)

/-- `KlipperApi::cancelPrint` (KlipperAPI.cpp 427-430). -/
def cancelPrint (self : KlipperApi) (net : ClientScript) : Outcome :=
  statusIs200 (sendPostToMoonraker self net "/printer/print/cancel".toList "\x7b\x7d".toList)

/-- `KlipperApi::emergencyStop` (KlipperAPI.cpp 508-511). -/
def emergencyStop (self : KlipperApi) (net : ClientScript) : Outcome :=
  statusIs200 (sendPostToMoonraker self net "/printer/emergency_stop".toList "\x7b\x7d".toList)

/-- `KlipperApi::restartFirmware` (KlipperAPI.cpp 514-517). -/
def restartFirmware (self : KlipperApi) (net : ClientScript) : Outcome :=
  statusIs200 (sendPostToMoonraker self net "/printer/restart".toList "\x7b\x7d".toList)

/-- `KlipperApi::restartHost` (KlipperAPI.cpp 520-523). -/
def restartHost (self : KlipperApi) (net : ClientScript) : Outcome :=
  statusIs200 (sendPostToMoonraker self net "/machine/reboot".toList "\x7b\x7d".toList)

/-! ## Decoded payloads -/

/-- The tree of JSON values the decoder produces (spec 4.5): object, array,
string, number, boolean or null. -/
inductive Json where
  | null
  | bool (b : Bool)
  | num (q : Rat)
  | str (s : Bytes)
  | arr (items : List Json)
  | obj (members : List (Bytes × Json))

/-- The value stored under `key` among the members of an object. -/
def Json.member : List (Bytes × Json) → Bytes → Option Json
  | [], _ => none
  | (k, v) :: ms, key => if k = key then some v else Json.member ms key

/-- `containsKey(key)`: the value is an object that has the key. -/
def Json.containsKey : Json → Bytes → Bool
  | Json.obj ms, key => (Json.member ms key).isSome
  | _, _ => false

/-- `operator[](key)`: the member, or null when there is none. -/
def Json.get : Json → Bytes → Json
  | Json.obj ms, key => (Json.member ms key).getD Json.null
  | _, _ => Json.null

/-- Conversion to `JsonObject`: a value that is not an object gives the
null object. -/
def Json.asObject : Json → Json
  | Json.obj ms => Json.obj ms
  | _ => Json.null

/-- Conversion to `JsonArray`: the elements, none for a value that is not
an array. -/
def Json.asArray : Json → List Json
  | Json.arr items => items
  | _ => []

/-- The conversions of the JSON library that the client relies on.  They are
external to the repository and enter as parameters: `deserializeJson`
builds the tree of a text, the `as...` functions convert a value to the
type of the variable it is assigned to.  Two facts about them are used: an
empty text decodes to no value, and the text of a string value is that
string. -/
structure JsonLibrary where
  deserializeJson : Bytes → Json
  asString : Json → Bytes
  asFloat : Json → CFloat
  asUInt32 : Json → Nat
  deserializeJson_nil : deserializeJson [] = Json.null
  asString_str : ∀ s : Bytes, asString (Json.str s) = s

/-! ## Projection helpers -/

/-- `KlipperApi::parsePrinterState` (KlipperAPI.cpp 543-563). -/
def parsePrinterState (stateStr : Bytes) (flags : PrinterStateFlags) : PrinterStateFlags :=
  let flags := { flags with ready := false }
  let flags := { flags with error := false }
  let flags := { flags with paused := false }
  let flags := { flags with printing := false }
  let flags := { flags with standby := false }
  let flags := { flags with shutdown := false }
  let flags := { flags with startup := false }
  let state := toLowerCase stateStr
  if state = "ready".toList then { flags with ready := true }
  else if state = "error".toList then { flags with error := true }
  else if state = "paused".toList then { flags with paused := true }
  else if state = "printing".toList then { flags with printing := true }
  else if state = "standby".toList then { flags with standby := true }
  else if state = "shutdown".toList then { flags with shutdown := true }
  else if state = "startup".toList then { flags with startup := true }
  else flags

/-- `KlipperApi::parseTemperatureData` (KlipperAPI.cpp 526-540): the record
after the call. -/
def parseTemperatureData (lib : JsonLibrary) (obj : Json) (tempData : TemperatureData) :
    TemperatureData :=
  let tempData :=
    if obj.containsKey "temperature".toList then
      { tempData with current := lib.asFloat (obj.get "temperature".toList) }
    else tempData
  let tempData :=
    if obj.containsKey "target".toList then
      { tempData with target := lib.asFloat (obj.get "target".toList) }
    else tempData
  if obj.containsKey "power".toList then
    { tempData with
      power := toInt16 (floatMul (lib.asFloat (obj.get "power".toList)) (floatOfNat 255)) }
  else tempData

/-- `KlipperApi::isValidTemperature` (KlipperAPI.cpp 566-568). -/
def isValidTemperature (temp : FloatValue) : Bool := temp.ge 0 && temp.le 500

/-- `KlipperApi::isValidPosition` (KlipperAPI.cpp 571-573). -/
def isValidPosition (pos : FloatValue) : Bool := pos.ge (-1000) && pos.le 1000

/-! ## Query operations -/

/-- `KlipperApi::getPrinterInfo` (KlipperAPI.cpp 192-227). -/
def getPrinterInfo (lib : JsonLibrary) (self : KlipperApi) (net : ClientScript) : Outcome :=
  let r := sendGetToMoonraker self net "/printer/info".toList
  let self := r.api
  if self.httpStatusCode ≠ 200 ∨ r.response.length = 0 then ⟨false, self, r.calls⟩
  else
    let doc := lib.deserializeJson r.response
    if doc.containsKey "result".toList then
      let result := (doc.get "result".toList).asObject
      let self :=
        if result.containsKey "state".toList then
          let state := lib.asString (result.get "state".toList)
          { self with
            printerStats :=
              { self.printerStats with
                state := toCharArray state 16
                stateFlags := parsePrinterState state self.printerStats.stateFlags } }
        else self
      let self :=
        if result.containsKey "software_version".toList then
          let version := lib.asString (result.get "software_version".toList)
          { self with
            serverInfo := { self.serverInfo with klipperVersion := toCharArray version 32 } }
        else self
      let self :=
        if result.containsKey "hostname".toList then
          let hostname := lib.asString (result.get "hostname".toList)
          { self with
            serverInfo := { self.serverInfo with hostname := toCharArray hostname 32 } }
        else self
      ⟨true, self, r.calls⟩
    else ⟨false, self, r.calls⟩

/-- The projection of the `toolhead` object (KlipperAPI.cpp 262-281). -/
def projectToolhead (lib : JsonLibrary) (toolhead : Json) (stats : PrinterStatistics) :
    PrinterStatistics :=
  let stats :=
    if toolhead.containsKey "position".toList then
      let position := (toolhead.get "position".toList).asArray
      if position.length ≥ 4 then
        { stats with
          positionX := lib.asFloat (position.getD 0 Json.null)
          positionY := lib.asFloat (position.getD 1 Json.null)
          positionZ := lib.asFloat (position.getD 2 Json.null)
          positionE := lib.asFloat (position.getD 3 Json.null) }
      else stats
    else stats
  if toolhead.containsKey "homed_axes".toList then
    let homedAxes := lib.asString (toolhead.get "homed_axes".toList)
    { stats with
      isHomed := decide (indexOf homedAxes 'x' 0 ≠ -1 ∧ indexOf homedAxes 'y' 0 ≠ -1
        ∧ indexOf homedAxes 'z' 0 ≠ -1) }
  else stats

/-- The projection of the `status` object into `printerStats`
(KlipperAPI.cpp 247-305). -/
def projectStatistics (lib : JsonLibrary) (status : Json) (stats : PrinterStatistics) :
    PrinterStatistics :=
  let stats :=
    if status.containsKey "extruder".toList then
      let extruder := (status.get "extruder".toList).asObject
      { stats with extruder := parseTemperatureData lib extruder stats.extruder
                   hasExtruder := true }
    else stats
  let stats :=
    if status.containsKey "heater_bed".toList then
      let bed := (status.get "heater_bed".toList).asObject
      { stats with heatedBed := parseTemperatureData lib bed stats.heatedBed
                   hasHeatedBed := true }
    else stats
  let stats :=
    if status.containsKey "toolhead".toList then
      projectToolhead lib (status.get "toolhead".toList).asObject stats
    else stats
  let stats :=
    if status.containsKey "print_stats".toList then
      let printStats := (status.get "print_stats".toList).asObject
      if printStats.containsKey "state".toList then
        let state := lib.asString (printStats.get "state".toList)
        { stats with state := toCharArray state 16
                     stateFlags := parsePrinterState state stats.stateFlags }
      else stats
    else stats
  if status.containsKey "gcode_move".toList then
    let gcodeMove := (status.get "gcode_move".toList).asObject
    let stats :=
      if gcodeMove.containsKey "speed_factor".toList then
        { stats with
          speedFactor := toUInt16
            (floatMul (lib.asFloat (gcodeMove.get "speed_factor".toList)) (floatOfNat 100)) }
      else stats
    if gcodeMove.containsKey "extrude_factor".toList then
      { stats with
        flowFactor := toUInt16
          (floatMul (lib.asFloat (gcodeMove.get "extrude_factor".toList)) (floatOfNat 100)) }
    else stats
  else stats

/-- `KlipperApi::getPrinterStatistics` (KlipperAPI.cpp 230-308). -/
def getPrinterStatistics (lib : JsonLibrary) (self : KlipperApi) (net : ClientScript) :
    Outcome :=
  let r := sendGetToMoonraker self net
    "/printer/objects/query?heater_bed&extruder&toolhead&print_stats&gcode_move".toList
  let self := r.api
  if self.httpStatusCode ≠ 200 ∨ r.response.length = 0 then ⟨false, self, r.calls⟩
  else
    let doc := lib.deserializeJson r.response
    if !doc.containsKey "result".toList
        ∨ !(doc.get "result".toList).containsKey "status".toList then
      ⟨false, self, r.calls⟩
    else
      let status := ((doc.get "result".toList).get "status".toList).asObject
      ⟨true, { self with printerStats := projectStatistics lib status self.printerStats },
        r.calls⟩

/-- `KlipperApi::getServerInfo` (KlipperAPI.cpp 311-333). -/
def getServerInfo (lib : JsonLibrary) (self : KlipperApi) (net : ClientScript) : Outcome :=
  let r := sendGetToMoonraker self net "/server/info".toList
  let self := r.api
  if self.httpStatusCode ≠ 200 ∨ r.response.length = 0 then ⟨false, self, r.calls⟩
  else
    let doc := lib.deserializeJson r.response
    if doc.containsKey "result".toList then
      let result := (doc.get "result".toList).asObject
      let self :=
        if result.containsKey "moonraker_version".toList then
          let version := lib.asString (result.get "moonraker_version".toList)
          { self with
            serverInfo := { self.serverInfo with moonrakerVersion := toCharArray version 32 } }
        else self
      ⟨true, self, r.calls⟩
    else ⟨false, self, r.calls⟩

/-- The cast `(uint32_t)` of a `float` (values out of range wrap in the model). -/
def toUInt32 (q : CFloat) : Nat := (truncate q % 4294967296).toNat

/-- The projection of the `print_stats` object into `printJob`
(KlipperAPI.cpp 354-380). -/
def projectPrintStats (lib : JsonLibrary) (printStats : Json) (job : PrintJobInfo) :
    PrintJobInfo :=
  let job :=
    if printStats.containsKey "filename".toList then
      let filename := lib.asString (printStats.get "filename".toList)
      { job with filename := toCharArray filename 64 }
    else job
  let job :=
    if printStats.containsKey "state".toList then
      let state := lib.asString (printStats.get "state".toList)
      { job with
        state := toCharArray state 16
        isPrinting := decide (state = "printing".toList)
        isPaused := decide (state = "paused".toList)
        isComplete := decide (state = "complete".toList)
        isCancelled := decide (state = "cancelled".toList)
        hasError := decide (state = "error".toList) }
    else job
  let job :=
    if printStats.containsKey "print_duration".toList then
      { job with printTime := lib.asUInt32 (printStats.get "print_duration".toList) }
    else job
  if printStats.containsKey "total_duration".toList then
    { job with estimatedTime := lib.asUInt32 (printStats.get "total_duration".toList) }
  else job

/-- The projection of the `virtual_sdcard` object into `printJob`
(KlipperAPI.cpp 384-393). -/
def projectSdcard (lib : JsonLibrary) (sdcard : Json) (job : PrintJobInfo) : PrintJobInfo :=
  let job :=
    if sdcard.containsKey "progress".toList then
      { job with progress := lib.asFloat (sdcard.get "progress".toList) }
    else job
  if sdcard.containsKey "file_size".toList then
    let job := { job with fileSize := lib.asUInt32 (sdcard.get "file_size".toList) }
    { job with printedBytes := toUInt32 (floatMul job.progress (floatOfNat job.fileSize)) }
  else job

/-- The quantity `totalEstimated - printJob.printTime` with
`totalEstimated = printJob.printTime / printJob.progress`
(KlipperAPI.cpp 398-399), before its conversion to `uint32_t`: the print
time is converted to `float`, the division and the subtraction are `float`
operations. -/
def timeLeftEstimate (job : PrintJobInfo) : CFloat :=
  let totalEstimated : CFloat := floatDiv (floatOfNat job.printTime) job.progress
  floatSub totalEstimated (floatOfNat job.printTime)

/-- The guard `printJob.progress > 0 && printJob.printTime > 0`
(KlipperAPI.cpp 397). -/
def timeLeftGuard (job : PrintJobInfo) : Bool :=
  decide (job.progress > 0) && decide (job.printTime > 0)

/-- The time-left calculation (KlipperAPI.cpp 397-400). -/
def calculateTimeLeft (job : PrintJobInfo) : PrintJobInfo :=
  if timeLeftGuard job then { job with timeLeft := toUInt32 (timeLeftEstimate job) }
  else job

/-- The projection of the `status` object into `printJob`
(KlipperAPI.cpp 352-400). -/
def projectJob (lib : JsonLibrary) (status : Json) (job : PrintJobInfo) : PrintJobInfo :=
  let job :=
    if status.containsKey "print_stats".toList then
      projectPrintStats lib (status.get "print_stats".toList).asObject job
    else job
  let job :=
    if status.containsKey "virtual_sdcard".toList then
      projectSdcard lib (status.get "virtual_sdcard".toList).asObject job
    else job
  calculateTimeLeft job

/-- `KlipperApi::getPrintJob` (KlipperAPI.cpp 336-403). -/
def getPrintJob (lib : JsonLibrary) (self : KlipperApi) (net : ClientScript) : Outcome :=
  let r := sendGetToMoonraker self net
    "/printer/objects/query?print_stats&virtual_sdcard".toList
  let self := r.api
  if self.httpStatusCode ≠ 200 ∨ r.response.length = 0 then ⟨false, self, r.calls⟩
  else
    let doc := lib.deserializeJson r.response
    if !doc.containsKey "result".toList
        ∨ !(doc.get "result".toList).containsKey "status".toList then
      ⟨false, self, r.calls⟩
    else
      let status := ((doc.get "result".toList).get "status".toList).asObject
      ⟨true, { self with printJob := projectJob lib status self.printJob }, r.calls⟩

/-! ## Command encoders -/

/-- C `snprintf(buf, size, ...)`: the formatted text, cut to `size - 1`
bytes so that it fits the buffer with its terminating NUL. -/
def snprintf (size : Nat) (formatted : Bytes) : Bytes := formatted.take (size - 1)

/-- The text `printf` produces for `%.1f`: the sign when the sign bit is
set, then for a finite value the integer part, a point and one decimal
digit of the magnitude rounded to tenths (ties to the even tenth), and
`inf` or `nan` otherwise. -/
def formatFixed1 (value : FloatValue) : Bytes :=
  (if value.signBit then "-".toList else []) ++
    match value with
    | FloatValue.finite q =>
      let tenths := roundHalfEven (|q| * 10)
      decimal (tenths / 10) ++ ".".toList ++ decimal (tenths % 10)
    | FloatValue.negativeZero => "0.0".toList
    | FloatValue.infinity _ => "inf".toList
    | FloatValue.notANumber => "nan".toList

/-- `KlipperApi::sendGcode` (KlipperAPI.cpp 484-490). -/
def sendGcode (self : KlipperApi) (net : ClientScript) (gcode : Bytes) : Outcome :=
  let postData := snprintf POSTDATA_SIZE ("\x7b\"script\":\"".toList ++ gcode ++ "\"\x7d".toList)
  statusIs200 (sendPostToMoonraker self net "/printer/gcode/script".toList postData)

/-- `KlipperApi::setExtruderTemperature` (KlipperAPI.cpp 433-439); `extruder`
holds a `uint8_t` value, printed by `%d`. -/
def setExtruderTemperature (self : KlipperApi) (net : ClientScript)
    (temperature : FloatValue) (extruder : Nat) : Outcome :=
  if !isValidTemperature temperature then ⟨false, self, []⟩
  else
    let gcode := snprintf 64
      ("M104 T".toList ++ decimal extruder ++ " S".toList ++ formatFixed1 temperature)
    sendGcode self net gcode

/-- `KlipperApi::setBedTemperature` (KlipperAPI.cpp 442-448). -/
def setBedTemperature (self : KlipperApi) (net : ClientScript) (temperature : FloatValue) :
    Outcome :=
  if !isValidTemperature temperature then ⟨false, self, []⟩
  else
    let gcode := snprintf 32 ("M140 S".toList ++ formatFixed1 temperature)
    sendGcode self net gcode

/-! ## The response a script delivers -/

/-- The body text the read loop accumulates from the lines of a script. -/
def responseBody (net : ClientScript) : Bytes := (readLoop net.lines false [] []).2

/-- The header block the read loop accumulates from the lines of a script. -/
def responseHeaders (net : ClientScript) : Bytes := (readLoop net.lines false [] []).1

/-- The status code extracted from the response a script delivers. -/
def responseStatus (net : ClientScript) : Int :=
  extractHttpCode (responseHeaders net) (responseBody net)

/-! ## The request in the words of the interface description -/

/-- The request text as the specification states it (spec 4.2 and 6): the
request line, `Host`, the fixed `User-Agent`, `Connection: close`, an
`X-Api-Key` line exactly when a non-empty key was configured, `Content-Type`
and `Content-Length` lines exactly when the body is non-empty, a blank line,
and the body, whose byte length is the `Content-Length` value. -/
def requestText (method path host : Bytes) (port : Nat) (apiKey body : Option Bytes) : Bytes :=
  method ++ " ".toList ++ path ++ " HTTP/1.1".toList ++ CRLF
    ++ ("Host: ".toList ++ host ++ ":".toList ++ decimal port ++ CRLF)
    ++ ("User-Agent: KlipperAPI/1.0.0 (Arduino)".toList ++ CRLF)
    ++ ("Connection: close".toList ++ CRLF)
    ++ (if apiKey.getD [] ≠ [] then "X-Api-Key: ".toList ++ apiKey.getD [] ++ CRLF else [])
    ++ (if body.getD [] ≠ [] then
          "Content-Type: application/json".toList ++ CRLF
            ++ ("Content-Length: ".toList ++ decimal (body.getD []).length ++ CRLF)
        else [])
    ++ CRLF
    ++ body.getD []

/-! ## The status line in the words of the specification -/

/-- A status line `HTTP/<ver> <code> <reason>` (spec 4.4 and 6). -/
def statusLine (ver code reason : Bytes) : Bytes :=
  "HTTP/".toList ++ ver ++ ' ' :: (code ++ ' ' :: reason)

/-- The numeric value of a text of decimal digits. -/
def decimalValue (code : Bytes) : Nat :=
  code.foldl (fun n c => 10 * n + (c.toNat - 48)) 0

/-- A text of exactly three decimal digits. -/
def threeDigits (code : Bytes) : Prop :=
  code.length = 3 ∧ ∀ c ∈ code, isDigit c = true

instance (code : Bytes) : Decidable (threeDigits code) := by
  unfold threeDigits
  infer_instance

/-! ## Sample values -/

/-- A temperature record holding zeros. -/
def zeroTemperature : TemperatureData := ⟨0, 0, 0⟩

/-- An object whose snapshot structures hold zeros and empty text. -/
def zeroApi : KlipperApi :=
  { printerStats :=
      { state := [], stateFlags := ⟨false, false, false, false, false, false, false, false⟩
        extruder := zeroTemperature, extruder1 := zeroTemperature, heatedBed := zeroTemperature
        positionX := 0, positionY := 0, positionZ := 0, positionE := 0
        speedFactor := 0, flowFactor := 0
        hasExtruder := false, hasExtruder1 := false, hasHeatedBed := false, isHomed := false
        reserved := 0 }
    printJob :=
      { filename := [], state := [], progress := 0, printTime := 0, estimatedTime := 0
        timeLeft := 0, fileSize := 0, printedBytes := 0
        isPrinting := false, isPaused := false, isComplete := false, isCancelled := false
        hasError := false, reserved := 0 }
    serverInfo := { klipperVersion := [], moonrakerVersion := [], hostname := [], port := 0 }
    motionLimits := ⟨0, 0, 0, 0, 0, 0, 0, 0, 0⟩
    _debug := false
    httpStatusCode := 0
    httpErrorBody := []
    _client := false
    _apiKey := []
    _moonrakerIp := ⟨0, 0, 0, 0⟩
    _usingIpAddress := false
    _moonrakerHost := none
    _moonrakerPort := 0
    _hasApiKey := false }

/-- A client built for the host `printer.local`, port 7125, without a key. -/
def sampleApi : KlipperApi :=
  KlipperApi.newHost zeroApi (some "printer.local".toList) 7125 none

/-- A server that answers `HTTP/1.1 200 OK` with the body `{}`. -/
def okScript : ClientScript :=
  { connect := true
    lines := ["HTTP/1.1 200 OK\r".toList, "\r".toList, "\x7b\x7d".toList]
    connected := true }

/-- A transport whose connect attempt fails. -/
def refusedScript : ClientScript := { connect := false, lines := [], connected := false }

/-- A server that answers `HTTP/1.1 404 Not Found`. -/
def notFoundScript : ClientScript :=
  { connect := true
    lines := ["HTTP/1.1 404 Not Found\r".toList, "\r".toList]
    connected := true }

/-- A server that answers 200 with the body `{"result":{"state":"printing"}}`. -/
def printingScript : ClientScript :=
  { connect := true
    lines := ["HTTP/1.1 200 OK\r".toList, "Content-Type: application/json\r".toList,
      "\r".toList, "\x7b\"result\":\x7b\"state\":\"printing\"\x7d\x7d".toList]
    connected := true }

/-- The members of the `result` object of `printingScript`. -/
def printingResult : List (Bytes × Json) := [("state".toList, Json.str "printing".toList)]

/-- The members of the document of `printingScript`. -/
def printingMembers : List (Bytes × Json) := [("result".toList, Json.obj printingResult)]

/-- A stand-in for the JSON library on one document: every text but the
empty one decodes to `tree`; a value converts to its own content when it has
the wanted type (a number converts to the nearest `float`) and to a zero
value otherwise. -/
def fixedLibrary (tree : Json) : JsonLibrary :=
  { deserializeJson := fun text => if text = [] then Json.null else tree
    asString := fun j => match j with
      | Json.str s => s
      | _ => []
    asFloat := fun j => match j with
      | Json.num q => roundF32 q
      | _ => 0
    asUInt32 := fun j => match j with
      | Json.num q => (truncate q % 4294967296).toNat
      | _ => 0
    deserializeJson_nil := by simp
    asString_str := fun _ => rfl }

/-- A server whose status line `HTTP/1.1 200` has no reason phrase and is
followed by a header line. -/
def noReasonScript : ClientScript :=
  { connect := true
    lines := ["HTTP/1.1 200\r".toList, "Content-Type: application/json\r".toList,
      "\r".toList, "\x7b\x7d".toList]
    connected := true }

/-- A peer whose first line `OK` is no status line and is followed by two
header lines. -/
def noStatusLineScript : ClientScript :=
  { connect := true
    lines := ["OK\r".toList, "Content-Length: 42\r".toList, "Server: nginx\r".toList,
      "\r".toList]
    connected := true }

/-- A server that answers 200 with a body of 2000 bytes on one line. -/
def longBodyScript : ClientScript :=
  { connect := true
    lines := ["HTTP/1.1 200 OK\r".toList, "\r".toList, List.replicate 2000 'x']
    connected := true }

/-- A server that answers 200 with a body of three lines of 1000 bytes. -/
def threeLineBodyScript : ClientScript :=
  { connect := true
    lines := ["HTTP/1.1 200 OK\r".toList, "\r".toList, List.replicate 1000 'x',
      List.replicate 1000 'y', List.replicate 1000 'z']
    connected := true }

/-- A connection on which no byte arrives before the deadline. -/
def silentScript : ClientScript := { connect := true, lines := [], connected := true }

/-- The command operations whose result is the status code alone. -/
def statusCommands : List (KlipperApi → ClientScript → Outcome) :=
  [cancelPrint, pausePrint, resumePrint, emergencyStop, restartFirmware, restartHost]

/-- The seven state flags, in the order of their declaration. -/
def PrinterStateFlags.seven (f : PrinterStateFlags) : List Bool :=
  [f.ready, f.error, f.paused, f.printing, f.standby, f.shutdown, f.startup]

/-- The response carries the key `key` inside the object `object` of the
status object. -/
def hasField (status : Json) (object key : Bytes) : Bool :=
  ((status.get object).asObject).containsKey key

/-- The value the response carries under `key` inside the object `object`. -/
def fieldOf (status : Json) (object key : Bytes) : Json :=
  ((status.get object).asObject).get key

/-- The status object the decoded response carries: `doc["result"]["status"]`
as a `JsonObject`. -/
def statusObject (lib : JsonLibrary) (net : ClientScript) : Json :=
  (((lib.deserializeJson (responseBody net)).get "result".toList).get "status".toList).asObject

/-- A successful multi-object query response: status 200 and a decoded body
with a top-level `result` key that contains a `status` key. -/
def successful (lib : JsonLibrary) (net : ClientScript) : Prop :=
  responseStatus net = 200
    ∧ (lib.deserializeJson (responseBody net)).containsKey "result".toList = true
    ∧ ((lib.deserializeJson (responseBody net)).get "result".toList).containsKey
        "status".toList = true

/-- A server that answers 200 with the given body on one line. -/
def jsonScript (body : Bytes) : ClientScript :=
  { connect := true
    lines := ["HTTP/1.1 200 OK\r".toList, "Content-Type: application/json\r".toList,
      "\r".toList, body]
    connected := true }

/-- The document `{"result":{"status":{...}}}` around the members of a
status object. -/
def statusDocument (members : List (Bytes × Json)) : Json :=
  Json.obj [("result".toList, Json.obj [("status".toList, Json.obj members)])]

/-- The body
`{"result":{"status":{"print_stats":{"print_duration":600},"virtual_sdcard":{"progress":2}}}}`. -/
def overProgressBody : Bytes :=
  ("\x7b\"result\":\x7b\"status\":\x7b\"print_stats\":\x7b\"print_duration\":600\x7d,"
    ++ "\"virtual_sdcard\":\x7b\"progress\":2\x7d\x7d\x7d\x7d").toList

/-- The document of `overProgressBody`. -/
def overProgressDocument : Json :=
  statusDocument
    [("print_stats".toList, Json.obj [("print_duration".toList, Json.num 600)]),
     ("virtual_sdcard".toList, Json.obj [("progress".toList, Json.num 2)])]

/-- The body
`{"result":{"status":{"print_stats":{"print_duration":600},"virtual_sdcard":{"progress":0.5}}}}`. -/
def halfProgressBody : Bytes :=
  ("\x7b\"result\":\x7b\"status\":\x7b\"print_stats\":\x7b\"print_duration\":600\x7d,"
    ++ "\"virtual_sdcard\":\x7b\"progress\":0.5\x7d\x7d\x7d\x7d").toList

/-- The document of `halfProgressBody`. -/
def halfProgressDocument : Json :=
  statusDocument
    [("print_stats".toList, Json.obj [("print_duration".toList, Json.num 600)]),
     ("virtual_sdcard".toList, Json.obj [("progress".toList, Json.num (1 / 2))])]

/-- The body
`{"result":{"status":{"print_stats":{"print_duration":600},"virtual_sdcard":{"progress":0.1}}}}`. -/
def tenthProgressBody : Bytes :=
  ("\x7b\"result\":\x7b\"status\":\x7b\"print_stats\":\x7b\"print_duration\":600\x7d,"
    ++ "\"virtual_sdcard\":\x7b\"progress\":0.1\x7d\x7d\x7d\x7d").toList

/-- The document of `tenthProgressBody`. -/
def tenthProgressDocument : Json :=
  statusDocument
    [("print_stats".toList, Json.obj [("print_duration".toList, Json.num 600)]),
     ("virtual_sdcard".toList, Json.obj [("progress".toList, Json.num (1 / 10))])]

/-- The progress the job snapshot holds after the projection of a status
object. -/
def projectedProgress (lib : JsonLibrary) (status : Json) (job : PrintJobInfo) : CFloat :=
  if hasField status "virtual_sdcard".toList "progress".toList then
    lib.asFloat (fieldOf status "virtual_sdcard".toList "progress".toList)
  else job.progress

/-- The print time the job snapshot holds after the projection of a status
object. -/
def projectedPrintTime (lib : JsonLibrary) (status : Json) (job : PrintJobInfo) : Nat :=
  if hasField status "print_stats".toList "print_duration".toList then
    lib.asUInt32 (fieldOf status "print_stats".toList "print_duration".toList)
  else job.printTime

/-- The response carries a `toolhead.position` array of at least four
elements. -/
def hasPosition (status : Json) : Bool :=
  hasField status "toolhead".toList "position".toList
    && decide ((fieldOf status "toolhead".toList "position".toList).asArray.length ≥ 4)

/-- The temperature record after the projection of the heater object named
`heater` of a status object. -/
def projectedTemperature (lib : JsonLibrary) (status : Json) (heater : Bytes)
    (tempData : TemperatureData) : TemperatureData :=
  { current :=
      if hasField status heater "temperature".toList then
        lib.asFloat (fieldOf status heater "temperature".toList)
      else tempData.current
    target :=
      if hasField status heater "target".toList then
        lib.asFloat (fieldOf status heater "target".toList)
      else tempData.target
    power :=
      if hasField status heater "power".toList then
        toInt16 (floatMul (lib.asFloat (fieldOf status heater "power".toList)) (floatOfNat 255))
      else tempData.power }

/-- Last-known-value semantics for `printerStats` (spec 3): every field
whose source key the status object lacks has its old value. -/
def statisticsKept (status : Json) (old new : PrinterStatistics) : Prop :=
  (hasField status "print_stats".toList "state".toList = false →
      new.state = old.state ∧ new.stateFlags = old.stateFlags)
    ∧ (hasField status "extruder".toList "temperature".toList = false →
      new.extruder.current = old.extruder.current)
    ∧ (hasField status "extruder".toList "target".toList = false →
      new.extruder.target = old.extruder.target)
    ∧ (hasField status "extruder".toList "power".toList = false →
      new.extruder.power = old.extruder.power)
    ∧ (status.containsKey "extruder".toList = false → new.hasExtruder = old.hasExtruder)
    ∧ (hasField status "heater_bed".toList "temperature".toList = false →
      new.heatedBed.current = old.heatedBed.current)
    ∧ (hasField status "heater_bed".toList "target".toList = false →
      new.heatedBed.target = old.heatedBed.target)
    ∧ (hasField status "heater_bed".toList "power".toList = false →
      new.heatedBed.power = old.heatedBed.power)
    ∧ (status.containsKey "heater_bed".toList = false → new.hasHeatedBed = old.hasHeatedBed)
    ∧ (hasField status "toolhead".toList "position".toList = false →
      new.positionX = old.positionX ∧ new.positionY = old.positionY
        ∧ new.positionZ = old.positionZ ∧ new.positionE = old.positionE)
    ∧ (hasField status "toolhead".toList "homed_axes".toList = false →
      new.isHomed = old.isHomed)
    ∧ (hasField status "gcode_move".toList "speed_factor".toList = false →
      new.speedFactor = old.speedFactor)
    ∧ (hasField status "gcode_move".toList "extrude_factor".toList = false →
      new.flowFactor = old.flowFactor)
    ∧ new.extruder1 = old.extruder1 ∧ new.hasExtruder1 = old.hasExtruder1
    ∧ new.reserved = old.reserved

/-- Last-known-value semantics for `printJob` (spec 3), the derived field
`timeLeft` apart: every field whose source key the status object lacks has
its old value, and so has `printedBytes` when neither `progress` nor
`file_size` is carried. -/
def jobKept (status : Json) (old new : PrintJobInfo) : Prop :=
  (hasField status "print_stats".toList "filename".toList = false →
      new.filename = old.filename)
    ∧ (hasField status "print_stats".toList "state".toList = false →
      new.state = old.state ∧ new.isPrinting = old.isPrinting ∧ new.isPaused = old.isPaused
        ∧ new.isComplete = old.isComplete ∧ new.isCancelled = old.isCancelled
        ∧ new.hasError = old.hasError)
    ∧ (hasField status "print_stats".toList "print_duration".toList = false →
      new.printTime = old.printTime)
    ∧ (hasField status "print_stats".toList "total_duration".toList = false →
      new.estimatedTime = old.estimatedTime)
    ∧ (hasField status "virtual_sdcard".toList "progress".toList = false →
      new.progress = old.progress)
    ∧ (hasField status "virtual_sdcard".toList "file_size".toList = false →
      new.fileSize = old.fileSize)
    ∧ (hasField status "virtual_sdcard".toList "progress".toList = false →
      hasField status "virtual_sdcard".toList "file_size".toList = false →
      new.printedBytes = old.printedBytes)
    ∧ new.reserved = old.reserved

/-- The status object carries neither `progress` nor `print_duration`, the
keys `timeLeft` is derived from. -/
def noTimeLeftKey (status : Json) : Prop :=
  hasField status "virtual_sdcard".toList "progress".toList = false
    ∧ hasField status "print_stats".toList "print_duration".toList = false

/-- The job snapshot's `timeLeft` agrees with its progress and print time:
either the guard of the calculation fails or `timeLeft` is what the
calculation gives. -/
def timeLeftSettled (job : PrintJobInfo) : Prop :=
  timeLeftGuard job = false ∨ job.timeLeft = toUInt32 (timeLeftEstimate job)

/-- The status object carries none of the keys `getPrinterStatistics`
recognizes. -/
def noStatisticsKey (status : Json) : Prop :=
  status.containsKey "extruder".toList = false
    ∧ status.containsKey "heater_bed".toList = false
    ∧ status.containsKey "toolhead".toList = false
    ∧ status.containsKey "print_stats".toList = false
    ∧ status.containsKey "gcode_move".toList = false

/-- The status object carries none of the keys `getPrintJob` recognizes. -/
def noJobKey (status : Json) : Prop :=
  status.containsKey "print_stats".toList = false
    ∧ status.containsKey "virtual_sdcard".toList = false

/-- The body `{"result":{"status":{}}}`. -/
def emptyStatusBody : Bytes := "\x7b\"result\":\x7b\"status\":\x7b\x7d\x7d\x7d".toList

/-- A client constructed in storage whose job snapshot held progress 0.5,
print time 600 and a time left of 0; the constructor leaves the snapshot as
it finds it. -/
def staleTimeLeftApi : KlipperApi :=
  KlipperApi.newHost
    { zeroApi with
      printJob := { zeroApi.printJob with progress := 1 / 2, printTime := 600, timeLeft := 0 } }
    (some "printer.local".toList) 7125 none

/-- The body
`{"result":{"status":{"virtual_sdcard":{"progress":0.25,"file_size":1000}}}}`. -/
def quarterProgressBody : Bytes :=
  ("\x7b\"result\":\x7b\"status\":\x7b\"virtual_sdcard\":"
    ++ "\x7b\"progress\":0.25,\"file_size\":1000\x7d\x7d\x7d\x7d").toList

/-- The document of `quarterProgressBody`. -/
def quarterProgressDocument : Json :=
  statusDocument
    [("virtual_sdcard".toList,
      Json.obj [("progress".toList, Json.num (1 / 4)), ("file_size".toList, Json.num 1000)])]

/-- The body `{"result":{"status":{"virtual_sdcard":{"progress":0.5}}}}`. -/
def progressOnlyBody : Bytes :=
  ("\x7b\"result\":\x7b\"status\":\x7b\"virtual_sdcard\":"
    ++ "\x7b\"progress\":0.5\x7d\x7d\x7d\x7d").toList

/-- The document of `progressOnlyBody`. -/
def progressOnlyDocument : Json :=
  statusDocument [("virtual_sdcard".toList, Json.obj [("progress".toList, Json.num (1 / 2))])]

/-- The body `{"result":{"status":{"print_stats":{"state":"Printing"}}}}`. -/
def capitalStateBody : Bytes :=
  ("\x7b\"result\":\x7b\"status\":\x7b\"print_stats\":"
    ++ "\x7b\"state\":\"Printing\"\x7d\x7d\x7d\x7d").toList

/-- The document of `capitalStateBody`. -/
def capitalStateDocument : Json :=
  statusDocument
    [("print_stats".toList, Json.obj [("state".toList, Json.str "Printing".toList)])]

/-- The five job flags, in the order of their declaration. -/
def PrintJobInfo.five (job : PrintJobInfo) : List Bool :=
  [job.isPrinting, job.isPaused, job.isComplete, job.isCancelled, job.hasError]

/-- A successful single-object query response: status 200 and a decoded
body with a top-level `result` key. -/
def successfulResult (lib : JsonLibrary) (net : ClientScript) : Prop :=
  responseStatus net = 200
    ∧ (lib.deserializeJson (responseBody net)).containsKey "result".toList = true

instance (lib : JsonLibrary) (net : ClientScript) : Decidable (successful lib net) := by
  unfold successful
  infer_instance

instance (lib : JsonLibrary) (net : ClientScript) : Decidable (successfulResult lib net) := by
  unfold successfulResult
  infer_instance

/-- The result object the decoded response carries: `doc["result"]` as a
`JsonObject`. -/
def resultObject (lib : JsonLibrary) (net : ClientScript) : Json :=
  ((lib.deserializeJson (responseBody net)).get "result".toList).asObject

/-- The projection `getPrinterInfo` makes from the result object
(KlipperAPI.cpp 205-221). -/
def projectInfo (lib : JsonLibrary) (result : Json) (self : KlipperApi) : KlipperApi :=
  let self :=
    if result.containsKey "state".toList then
      let state := lib.asString (result.get "state".toList)
      { self with
        printerStats :=
          { self.printerStats with
            state := toCharArray state 16
            stateFlags := parsePrinterState state self.printerStats.stateFlags } }
    else self
  let self :=
    if result.containsKey "software_version".toList then
      let version := lib.asString (result.get "software_version".toList)
      { self with
        serverInfo := { self.serverInfo with klipperVersion := toCharArray version 32 } }
    else self
  if result.containsKey "hostname".toList then
    let hostname := lib.asString (result.get "hostname".toList)
    { self with
      serverInfo := { self.serverInfo with hostname := toCharArray hostname 32 } }
  else self

/-- The projection `getServerInfo` makes from the result object
(KlipperAPI.cpp 324-327). -/
def projectServer (lib : JsonLibrary) (result : Json) (self : KlipperApi) : KlipperApi :=
  if result.containsKey "moonraker_version".toList then
    let version := lib.asString (result.get "moonraker_version".toList)
    { self with
      serverInfo := { self.serverInfo with moonrakerVersion := toCharArray version 32 } }
  else self

/-- The object a query leaves behind, by cases: without a client or a
connection nothing changes; with a response the status code is stored and,
when the response is a success, the projection `update` is applied. -/
def queryApi (self : KlipperApi) (net : ClientScript) (success : Prop) [Decidable success]
    (update : KlipperApi → KlipperApi) : KlipperApi :=
  if self._client = true ∧ net.connect = true then
    if success then update { self with httpStatusCode := responseStatus net }
    else { self with httpStatusCode := responseStatus net }
  else self

/-- The four snapshot structures of an object. -/
def KlipperApi.snapshots (self : KlipperApi) :
    PrinterStatistics × PrintJobInfo × ServerInfo × MotionLimits :=
  (self.printerStats, self.printJob, self.serverInfo, self.motionLimits)

/-- Storage that an earlier use left non-zero: a set `printing` flag, a file
name, a time left of 42, a host name and an axis limit of 250. -/
def usedStorage : KlipperApi :=
  { zeroApi with
    printerStats :=
      { zeroApi.printerStats with
        stateFlags := { zeroApi.printerStats.stateFlags with printing := true } }
    printJob := { zeroApi.printJob with filename := "old.gcode".toList, timeLeft := 42 }
    serverInfo := { zeroApi.serverInfo with hostname := "old".toList }
    motionLimits := { zeroApi.motionLimits with xMax := 250 } }

/-- The query operations. -/
def queryOperations : List (JsonLibrary → KlipperApi → ClientScript → Outcome) :=
  [getPrinterInfo, getPrinterStatistics, getServerInfo, getPrintJob]

/-- The body `{}`. -/
def emptyObjectBody : Bytes := "\x7b\x7d".toList

/-! ## Theorems -/

/-- C1 (the code departs from the claim): after a first `cancelPrint` that the
server answered with 200, a second `cancelPrint` whose connect attempt fails
makes no call but `connect`, yet returns `true` and leaves the status code at
200 instead of returning `false` with status 0. -/
theorem cancelPrint_connect_failure_stale_status :
    (cancelPrint sampleApi okScript).api.httpStatusCode = 200
      ∧ refusedScript.connect = false
      ∧ (cancelPrint (cancelPrint sampleApi okScript).api refusedScript).calls
          = [ClientCall.connect]
      ∧ (cancelPrint (cancelPrint sampleApi okScript).api refusedScript).ok = true
      ∧ (cancelPrint (cancelPrint sampleApi okScript).api refusedScript).api.httpStatusCode
          = 200 := by
  decide

/-- C2: `parsePrinterState` sets each of the seven flags exactly when the
lower-cased label equals the flag's name, so at most one flag is set, none
for a label that is not one of the seven names, and the seven flags do not
depend on the flags before the call. -/
theorem parsePrinterState_exclusive (stateStr : Bytes) (flags other : PrinterStateFlags) :
    (parsePrinterState stateStr flags).ready = decide (toLowerCase stateStr = "ready".toList)
      ∧ (parsePrinterState stateStr flags).error
          = decide (toLowerCase stateStr = "error".toList)
      ∧ (parsePrinterState stateStr flags).paused
          = decide (toLowerCase stateStr = "paused".toList)
      ∧ (parsePrinterState stateStr flags).printing
          = decide (toLowerCase stateStr = "printing".toList)
      ∧ (parsePrinterState stateStr flags).standby
          = decide (toLowerCase stateStr = "standby".toList)
      ∧ (parsePrinterState stateStr flags).shutdown
          = decide (toLowerCase stateStr = "shutdown".toList)
      ∧ (parsePrinterState stateStr flags).startup
          = decide (toLowerCase stateStr = "startup".toList)
      ∧ (parsePrinterState stateStr flags).seven.count true ≤ 1
      ∧ (parsePrinterState stateStr flags).seven = (parsePrinterState stateStr other).seven := by
  unfold parsePrinterState PrinterStateFlags.seven
  simp only []
  split_ifs with h1 h2 h3 h4 h5 h6 h7
  · rw [h1]; simp +decide
  · rw [h2]; simp +decide
  · rw [h3]; simp +decide
  · rw [h4]; simp +decide
  · rw [h5]; simp +decide
  · rw [h6]; simp +decide
  · rw [h7]; simp +decide
  · simp only [h1, h2, h3, h4, h5, h6, h7]; simp

/-- With a client set and a successful connect, the request cycle returns
the body read from the stream and stores the extracted status code. -/
lemma sendRequest_connected (self : KlipperApi) (net : ClientScript) (method endpoint : Bytes)
    (data : Option Bytes) (hclient : self._client = true) (hconnect : net.connect = true) :
    (sendRequestToMoonraker self net method endpoint data).response = responseBody net
      ∧ (sendRequestToMoonraker self net method endpoint data).api
          = { self with httpStatusCode := responseStatus net } := by
  simp [sendRequestToMoonraker, hclient, hconnect, responseBody, responseStatus, responseHeaders]

/-- The request cycle changes no member other than the status code. -/
lemma sendRequest_frame (self : KlipperApi) (net : ClientScript) (method endpoint : Bytes)
    (data : Option Bytes) :
    (sendRequestToMoonraker self net method endpoint data).api
      = { self with
          httpStatusCode :=
            (sendRequestToMoonraker self net method endpoint data).api.httpStatusCode } := by
  unfold sendRequestToMoonraker
  split_ifs <;> rfl

/-- The label `printing` sets the `printing` flag alone. -/
lemma parsePrinterState_printing (flags : PrinterStateFlags) :
    (parsePrinterState "printing".toList flags).seven
      = [false, false, false, true, false, false, false] := by
  have h : toLowerCase "printing".toList = "printing".toList := by decide
  unfold parsePrinterState PrinterStateFlags.seven
  simp only [h]
  simp +decide

/-- The label `printing` fits the sixteen-byte state buffer. -/
lemma toCharArray_printing : toCharArray "printing".toList 16 = "printing".toList := by
  decide

/-- C3: when the response has status 200 and its body decodes to an object
whose `result` object holds `state = "printing"`, `getPrinterInfo` returns
`true`, of the seven state flags exactly `printing` is set, and the state
label is the text `printing`. -/
theorem getPrinterInfo_printing (lib : JsonLibrary) (self : KlipperApi) (net : ClientScript)
    (members resultMembers : List (Bytes × Json))
    (hclient : self._client = true) (hconnect : net.connect = true)
    (hstatus : responseStatus net = 200)
    (hdoc : lib.deserializeJson (responseBody net) = Json.obj members)
    (hresult : Json.member members "result".toList = some (Json.obj resultMembers))
    (hstate : Json.member resultMembers "state".toList = some (Json.str "printing".toList)) :
    (getPrinterInfo lib self net).ok = true
      ∧ (getPrinterInfo lib self net).api.printerStats.stateFlags.seven
          = [false, false, false, true, false, false, false]
      ∧ (getPrinterInfo lib self net).api.printerStats.state = "printing".toList := by
  have hbody : responseBody net ≠ [] := by
    intro h
    rw [h, lib.deserializeJson_nil] at hdoc
    cases hdoc
  obtain ⟨hresp, hapi⟩ := sendRequest_connected self net "GET".toList "/printer/info".toList
    none hclient hconnect
  simp only [getPrinterInfo, sendGetToMoonraker, hresp, hapi, hstatus, hdoc, Json.containsKey, Json.get, Json.asObject, hresult, hstate,
    lib.asString_str, List.length_eq_zero, hbody, ne_eq, not_true_eq_false, or_self,
    if_false, Option.isSome_some, if_true, Option.getD_some]
  split_ifs <;> exact ⟨trivial, parsePrinterState_printing _, toCharArray_printing⟩

/-- C3 at a concrete response: `printingScript` against `sampleApi`. -/
theorem getPrinterInfo_printing_witness :
    responseStatus printingScript = 200
      ∧ (getPrinterInfo (fixedLibrary (Json.obj printingMembers)) sampleApi printingScript).ok
          = true
      ∧ (getPrinterInfo (fixedLibrary (Json.obj printingMembers)) sampleApi
            printingScript).api.printerStats.stateFlags.seven
          = [false, false, false, true, false, false, false]
      ∧ (getPrinterInfo (fixedLibrary (Json.obj printingMembers)) sampleApi
            printingScript).api.printerStats.state = "printing".toList :=
  ⟨by decide,
    getPrinterInfo_printing (fixedLibrary (Json.obj printingMembers)) sampleApi printingScript
      printingMembers printingResult (by decide) (by decide) (by decide) rfl rfl rfl⟩

/-- A refresh whose request cycle ends with a status code other than 200
fails and changes no member but the status code. -/
lemma getPrinterStatistics_of_status_ne (lib : JsonLibrary) (self : KlipperApi)
    (net : ClientScript)
    (h : (sendGetToMoonraker self net
      "/printer/objects/query?heater_bed&extruder&toolhead&print_stats&gcode_move".toList
        ).api.httpStatusCode ≠ 200) :
    (getPrinterStatistics lib self net).ok = false
      ∧ (getPrinterStatistics lib self net).api
          = (sendGetToMoonraker self net
      "/printer/objects/query?heater_bed&extruder&toolhead&print_stats&gcode_move".toList
              ).api := by
  simp only [getPrinterStatistics]
  rw [if_pos (Or.inl h)]
  exact ⟨rfl, rfl⟩

/-- C4: when the status code extracted from the response is not 200,
`getPrinterStatistics` returns `false` and `printerStats`, `printJob` and
`serverInfo` are what they were before the call. -/
theorem getPrinterStatistics_status_not_200 (lib : JsonLibrary) (self : KlipperApi)
    (net : ClientScript) (hclient : self._client = true) (hconnect : net.connect = true)
    (hstatus : responseStatus net ≠ 200) :
    (getPrinterStatistics lib self net).ok = false
      ∧ (getPrinterStatistics lib self net).api.printerStats = self.printerStats
      ∧ (getPrinterStatistics lib self net).api.printJob = self.printJob
      ∧ (getPrinterStatistics lib self net).api.serverInfo = self.serverInfo := by
  obtain ⟨-, hapi⟩ := sendRequest_connected self net "GET".toList
    "/printer/objects/query?heater_bed&extruder&toolhead&print_stats&gcode_move".toList
    none hclient hconnect
  have h := getPrinterStatistics_of_status_ne lib self net
    (by unfold sendGetToMoonraker; rw [hapi]; exact hstatus)
  unfold sendGetToMoonraker at h
  rw [hapi] at h
  rw [h.1, h.2]
  exact ⟨rfl, rfl, rfl, rfl⟩

/-- C4 at a concrete response: `HTTP/1.1 404 Not Found` against `sampleApi`. -/
theorem getPrinterStatistics_status_not_200_witness :
    responseStatus notFoundScript = 404
      ∧ (getPrinterStatistics (fixedLibrary Json.null) sampleApi notFoundScript).ok = false
      ∧ (getPrinterStatistics (fixedLibrary Json.null) sampleApi
            notFoundScript).api.printerStats = sampleApi.printerStats
      ∧ (getPrinterStatistics (fixedLibrary Json.null) sampleApi
            notFoundScript).api.printJob = sampleApi.printJob
      ∧ (getPrinterStatistics (fixedLibrary Json.null) sampleApi
            notFoundScript).api.serverInfo = sampleApi.serverInfo :=
  ⟨by decide,
    getPrinterStatistics_status_not_200 (fixedLibrary Json.null) sampleApi notFoundScript
      (by decide) (by decide) (by decide)⟩

/-- The text built from an object initialised with a host name. -/
lemma buildRequest_initHost (storage : KlipperApi) (method path host : Bytes) (port : Nat)
    (apiKey body : Option Bytes) :
    buildRequest (storage.initHost (some host) port apiKey) method path body
      = requestText method path host port apiKey body := by
  rcases apiKey with _ | key <;> rcases body with _ | d
  · simp [buildRequest, requestText, KlipperApi.initHost, keyGiven, USER_AGENT]
  · by_cases hd : d = [] <;>
      simp [buildRequest, requestText, KlipperApi.initHost, keyGiven, USER_AGENT, hd,
        List.length_pos]
  · by_cases hk : key = [] <;>
      simp [buildRequest, requestText, KlipperApi.initHost, keyGiven, USER_AGENT, hk,
        List.length_pos]
  · by_cases hk : key = [] <;> by_cases hd : d = [] <;>
      simp [buildRequest, requestText, KlipperApi.initHost, keyGiven, USER_AGENT, hk, hd,
        List.length_pos]

/-- The text built from an object initialised with an IP address. -/
lemma buildRequest_initIp (storage : KlipperApi) (method path : Bytes) (ip : IPAddress)
    (port : Nat) (apiKey body : Option Bytes) :
    buildRequest (storage.initIp ip port apiKey) method path body
      = requestText method path ip.toString port apiKey body := by
  rcases apiKey with _ | key <;> rcases body with _ | d
  · simp [buildRequest, requestText, KlipperApi.initIp, keyGiven, USER_AGENT]
  · by_cases hd : d = [] <;>
      simp [buildRequest, requestText, KlipperApi.initIp, keyGiven, USER_AGENT, hd,
        List.length_pos]
  · by_cases hk : key = [] <;>
      simp [buildRequest, requestText, KlipperApi.initIp, keyGiven, USER_AGENT, hk,
        List.length_pos]
  · by_cases hk : key = [] <;> by_cases hd : d = [] <;>
      simp [buildRequest, requestText, KlipperApi.initIp, keyGiven, USER_AGENT, hk, hd,
        List.length_pos]

/-- C5: once the connection is made, the one text `sendRequestToMoonraker`
prints is the request of the interface description, for an object
initialised with a host name and for one initialised with an IP address
(whose `Host` value is the dotted address), whatever the method, path, port,
optional key, optional body and the response that follows. -/
theorem sendRequest_prints_requestText (storage : KlipperApi) (net : ClientScript)
    (method path host : Bytes) (ip : IPAddress) (port : Nat) (apiKey body : Option Bytes)
    (hconnect : net.connect = true) :
    (sendRequestToMoonraker (storage.initHost (some host) port apiKey) net method path
        body).calls
        = ClientCall.connect :: ClientCall.print (requestText method path host port apiKey body)
            :: (if net.connected then [ClientCall.stop] else [])
      ∧ (sendRequestToMoonraker (storage.initIp ip port apiKey) net method path body).calls
        = ClientCall.connect
            :: ClientCall.print (requestText method path ip.toString port apiKey body)
            :: (if net.connected then [ClientCall.stop] else []) := by
  constructor
  · simp only [sendRequestToMoonraker, hconnect, buildRequest_initHost]
    simp [KlipperApi.initHost, closeClient]
  · simp only [sendRequestToMoonraker, hconnect, buildRequest_initIp]
    simp [KlipperApi.initIp, closeClient]

/-- C5 at a cancel command with a key and the body `{}`: the text printed
for the host `printer.local` and for the address 192.168.1.20. -/
theorem sendRequest_prints_requestText_witness :
    requestText "POST".toList "/printer/print/cancel".toList "printer.local".toList 7125
        (some "secret".toList) (some "\x7b\x7d".toList)
        = ("POST /printer/print/cancel HTTP/1.1\r\nHost: printer.local:7125\r\n"
            ++ "User-Agent: KlipperAPI/1.0.0 (Arduino)\r\nConnection: close\r\n"
            ++ "X-Api-Key: secret\r\nContent-Type: application/json\r\n"
            ++ "Content-Length: 2\r\n\r\n\x7b\x7d").toList
      ∧ IPAddress.toString ⟨192, 168, 1, 20⟩ = "192.168.1.20".toList
      ∧ (sendRequestToMoonraker
            (zeroApi.initHost (some "printer.local".toList) 7125 (some "secret".toList))
            okScript "POST".toList "/printer/print/cancel".toList
            (some "\x7b\x7d".toList)).calls
          = ClientCall.connect
            :: ClientCall.print (requestText "POST".toList "/printer/print/cancel".toList
                "printer.local".toList 7125 (some "secret".toList) (some "\x7b\x7d".toList))
            :: (if okScript.connected then [ClientCall.stop] else [])
      ∧ (sendRequestToMoonraker (zeroApi.initIp ⟨192, 168, 1, 20⟩ 7125 (some "secret".toList))
            okScript "POST".toList "/printer/print/cancel".toList
            (some "\x7b\x7d".toList)).calls
          = ClientCall.connect
            :: ClientCall.print (requestText "POST".toList "/printer/print/cancel".toList
                (IPAddress.toString ⟨192, 168, 1, 20⟩) 7125 (some "secret".toList)
                (some "\x7b\x7d".toList))
            :: (if okScript.connected then [ClientCall.stop] else []) :=
  ⟨by set_option maxRecDepth 4000 in decide, by decide,
    sendRequest_prints_requestText zeroApi okScript "POST".toList
      "/printer/print/cancel".toList "printer.local".toList ⟨192, 168, 1, 20⟩ 7125
      (some "secret".toList) (some "\x7b\x7d".toList) (by decide)⟩

/-! ### Status extraction -/

lemma strchr_append (front tail : Bytes) (ch : Char) (h : ch ∉ front) :
    strchr (front ++ ch :: tail) ch = some front.length := by
  induction front with
  | nil => simp [strchr]
  | cons x xs ih =>
    have hx : x ≠ ch := fun e => h (by simp [e])
    have hxs : ch ∉ xs := fun e => h (by simp [e])
    simp [strchr, hx, ih hxs]

lemma isDigit_ne_space (c : Char) (h : isDigit c = true) : c ≠ ' ' := by
  rintro rfl
  revert h
  decide

lemma space_not_mem_digits (code : Bytes) (h : ∀ c ∈ code, isDigit c = true) : ' ' ∉ code :=
  fun hmem => isDigit_ne_space ' ' (h ' ' hmem) rfl

lemma atolDigits_digits (code : Bytes) (h : ∀ c ∈ code, isDigit c = true) (acc : Nat) :
    atolDigits code acc = code.foldl (fun n c => 10 * n + (c.toNat - 48)) acc := by
  induction code generalizing acc with
  | nil => rfl
  | cons x xs ih =>
    have hx : isDigit x = true := h x (by simp)
    have hxs : ∀ c ∈ xs, isDigit c = true := fun c hc => h c (by simp [hc])
    simp [atolDigits, hx, ih hxs, Nat.mul_comm]

lemma toInt_digits (code : Bytes) (h : ∀ c ∈ code, isDigit c = true) :
    toInt code = (decimalValue code : Int) := by
  cases code with
  | nil => rfl
  | cons x xs =>
    have hx : isDigit x = true := h x (by simp)
    have hspace : isSpace x = false := by
      simp only [isDigit, isSpace] at hx ⊢
      simp only [Bool.and_eq_true, decide_eq_true_eq] at hx
      simp only [Bool.or_eq_false_iff, decide_eq_false_iff_not, Bool.and_eq_false_iff]
      omega
    have hminus : x ≠ '-' := by
      rintro rfl
      revert hx
      decide
    have hplus : x ≠ '+' := by
      rintro rfl
      revert hx
      decide
    simp [toInt, atol, hspace, atolSigned, hminus, hplus, decimalValue,
      atolDigits_digits (x :: xs) h]

/-- A text longer than twelve bytes that consists of a front without a
space, a space, a run of digits, a space and anything else has the value of
the digits as its status code. -/
lemma extractHttpCode_shape (front code tail body : Bytes) (hfront : ' ' ∉ front)
    (hcode : ∀ c ∈ code, isDigit c = true)
    (hlen : (front ++ ' ' :: (code ++ ' ' :: tail)).length > 12) :
    extractHttpCode (front ++ ' ' :: (code ++ ' ' :: tail)) body = (decimalValue code : Int) := by
  have h1 : indexOf (front ++ ' ' :: (code ++ ' ' :: tail)) ' ' 0 = (front.length : Int) := by
    simp [indexOf, strchr_append front _ ' ' hfront]
  have hdrop : (front ++ ' ' :: (code ++ ' ' :: tail)).drop (front.length + 1)
      = code ++ ' ' :: tail := by
    rw [show front ++ ' ' :: (code ++ ' ' :: tail) = (front ++ [' ']) ++ (code ++ ' ' :: tail) by
      simp]
    exact List.drop_left' (by simp)
  have h2 : indexOf (front ++ ' ' :: (code ++ ' ' :: tail)) ' ' (front.length + 1)
      = ((front.length + 1 + code.length : Nat) : Int) := by
    unfold indexOf
    rw [hdrop, strchr_append code tail ' ' (space_not_mem_digits code hcode)]
    simp
  have h3 : substring (front ++ ' ' :: (code ++ ' ' :: tail)) (front.length + 1)
      (front.length + 1 + code.length) = code := by
    unfold substring
    simp only [hdrop]
    have hlength : (front ++ ' ' :: (code ++ ' ' :: tail)).length
        = front.length + 1 + code.length + 1 + tail.length := by
      simp
      omega
    rw [hlength]
    have e0 : ¬ (front.length + 1 > front.length + 1 + code.length) := by omega
    have e1 : ¬ (front.length + 1 ≥ front.length + 1 + code.length + 1 + tail.length) := by
      omega
    have e2 : ¬ (front.length + 1 + code.length
        > front.length + 1 + code.length + 1 + tail.length) := by omega
    simp only [e0, e1, e2, if_false]
    rw [show front.length + 1 + code.length - (front.length + 1) = code.length by omega, hdrop]
    exact List.take_left' rfl
  unfold extractHttpCode
  simp only [hlen, if_true, h1]
  have e1 : ((front.length : Int) + 1).toNat = front.length + 1 := by omega
  rw [e1, h2]
  have e2 : ((front.length + 1 + code.length : Nat) : Int).toNat
      = front.length + 1 + code.length := by omega
  rw [e2, h3, if_pos (by constructor <;> omega)]
  exact toInt_digits code hcode

/-- C6 as stated fails on short texts: the status line `HTTP/1 200 K` on its
own, and the block `HTTP/ 200 K` followed by a line feed, are of the stated
form (no space in the version, three digits, non-empty reason) and give 0,
not 200. -/
theorem extractHttpCode_short_status_line :
    extractHttpCode (statusLine "1".toList "200".toList "K".toList) [] = 0
      ∧ extractHttpCode (statusLine [] "200".toList "K".toList ++ [LF]) [] = 0
      ∧ ¬ (∀ ver code reason rest body : Bytes, ' ' ∉ ver → threeDigits code → reason ≠ [] →
            extractHttpCode (statusLine ver code reason ++ rest) body
              = (decimalValue code : Int)) := by
  refine ⟨by decide, by decide, fun h => ?_⟩
  have h0 := h "1".toList "200".toList "K".toList [] [] (by decide) (by decide) (by decide)
  revert h0
  decide

/-- C6 (amended): for a header text longer than twelve bytes that begins
with a status line `HTTP/<ver> <code> <reason>`, where the version has no
space, the code is three decimal digits and the reason is not empty,
`extractHttpCode` returns the numeric value of the code. -/
theorem extractHttpCode_status_line (ver code reason rest body : Bytes) (hver : ' ' ∉ ver)
    (hcode : threeDigits code) (_hreason : reason ≠ [])
    (hlen : (statusLine ver code reason ++ rest).length > 12) :
    extractHttpCode (statusLine ver code reason ++ rest) body = (decimalValue code : Int) := by
  have hfront : ' ' ∉ "HTTP/".toList ++ ver := by
    intro hmem
    rcases List.mem_append.mp hmem with h | h
    · revert h
      decide
    · exact hver h
  have hshape : statusLine ver code reason ++ rest
      = ("HTTP/".toList ++ ver) ++ ' ' :: (code ++ ' ' :: (reason ++ rest)) := by
    simp [statusLine]
  rw [hshape] at hlen ⊢
  exact extractHttpCode_shape _ code _ body hfront hcode.2 hlen

/-- C6 (amended) at `HTTP/1.1 404 Not Found` followed by a header line. -/
theorem extractHttpCode_status_line_witness :
    ' ' ∉ "1.1".toList ∧ threeDigits "404".toList
      ∧ extractHttpCode
          (statusLine "1.1".toList "404".toList "Not Found".toList
            ++ "\r\nConnection: close\r\n".toList) []
          = (decimalValue "404".toList : Int) :=
  ⟨by decide, by decide,
    extractHttpCode_status_line "1.1".toList "404".toList "Not Found".toList
      "\r\nConnection: close\r\n".toList [] (by decide) (by decide) (by decide) (by decide)⟩

/-- C7 (the code departs from the claim): `extractHttpCode` searches the
whole header block, not its first line.  The first line `HTTP/1.1 200`
without a reason phrase gives 200 when a later header line holds a space
and 0 when none does; a first line `OK` followed by `Content-Length: 42`
and `Server: nginx` gives 42. -/
theorem extractHttpCode_reads_past_first_line :
    responseHeaders noReasonScript
        = "HTTP/1.1 200\r\nContent-Type: application/json\r\n\r\n".toList
      ∧ responseStatus noReasonScript = 200
      ∧ extractHttpCode "HTTP/1.1 200\r\n\r\n".toList [] = 0
      ∧ responseHeaders noStatusLineScript
        = "OK\r\nContent-Length: 42\r\nServer: nginx\r\n\r\n".toList
      ∧ responseStatus noStatusLineScript = 42 := by
  decide

/-- A header block of two lines followed by one body line: the body line
is returned whole, whatever its length. -/
lemma readLoop_one_body_line (status blank body : Bytes) (hstatus : ¬ status.length ≤ 1)
    (hblank : blank.length ≤ 1) :
    (readLoop [status, blank, body] false [] []).2 = body := by
  simp only [readLoop, Bool.not_false, if_true, if_pos hblank, if_neg hstatus, Bool.not_true,
    List.nil_append]
  simp

/-- A header block of two lines followed by three body lines of which the
first fits under the ceiling and the first two together do not: the first
two are returned. -/
lemma readLoop_three_body_lines (status blank x y z : Bytes) (hstatus : ¬ status.length ≤ 1)
    (hblank : blank.length ≤ 1) (hx : ¬ x.length > maxMessageLength)
    (hxy : (x ++ y).length > maxMessageLength) :
    (readLoop [status, blank, x, y, z] false [] []).2 = x ++ y := by
  simp only [readLoop, Bool.not_false, if_true, if_pos hblank, if_neg hstatus, Bool.not_true,
    List.nil_append, if_neg hx, if_pos hxy]
  simp

/-- C8 (the code departs from the claim): the read loop stops only after the
body has grown past `maxMessageLength` and never cuts it.  A body of 2000
bytes on one line is returned whole, and of three lines of 1000 bytes the
first two are returned, 2000 bytes, where the ceiling is 1500. -/
theorem response_exceeds_maxMessageLength :
    maxMessageLength = 1500
      ∧ (sendRequestToMoonraker sampleApi longBodyScript "GET".toList "/printer/info".toList
          none).response = List.replicate 2000 'x'
      ∧ (sendRequestToMoonraker sampleApi longBodyScript "GET".toList "/printer/info".toList
          none).response.length = 2000
      ∧ (sendRequestToMoonraker sampleApi threeLineBodyScript "GET".toList
          "/printer/info".toList none).response
          = List.replicate 1000 'x' ++ List.replicate 1000 'y' := by
  have hlong : (sendRequestToMoonraker sampleApi longBodyScript "GET".toList
      "/printer/info".toList none).response = List.replicate 2000 'x' := by
    rw [(sendRequest_connected sampleApi longBodyScript _ _ none rfl rfl).1]
    exact readLoop_one_body_line _ _ _ (by decide) (by decide)
  refine ⟨rfl, hlong, ?_, ?_⟩
  · rw [hlong, List.length_replicate]
  · rw [(sendRequest_connected sampleApi threeLineBodyScript _ _ none rfl rfl).1]
    exact readLoop_three_body_lines _ _ _ _ _ (by decide) (by decide)
      (by rw [List.length_replicate]; decide)
      (by rw [List.length_append, List.length_replicate, List.length_replicate]; decide)

/-- C9: with a client set and the connection made, a stream that delivers
no line before the deadline gives an empty body and status code 0, whatever
the status code was before. -/
theorem sendRequest_no_bytes (self : KlipperApi) (net : ClientScript)
    (method endpoint : Bytes) (data : Option Bytes) (hclient : self._client = true)
    (hconnect : net.connect = true) (hlines : net.lines = []) :
    (sendRequestToMoonraker self net method endpoint data).response = []
      ∧ (sendRequestToMoonraker self net method endpoint data).api.httpStatusCode = 0 := by
  obtain ⟨hresp, hapi⟩ := sendRequest_connected self net method endpoint data hclient hconnect
  rw [hresp, hapi]
  simp [responseBody, responseStatus, responseHeaders, hlines, readLoop, extractHttpCode]

/-- C9 at a client whose previous call ended with status 200. -/
theorem sendRequest_no_bytes_witness :
    (cancelPrint sampleApi okScript).api.httpStatusCode = 200
      ∧ (sendRequestToMoonraker (cancelPrint sampleApi okScript).api silentScript "GET".toList
          "/printer/info".toList none).response = []
      ∧ (sendRequestToMoonraker (cancelPrint sampleApi okScript).api silentScript "GET".toList
          "/printer/info".toList none).api.httpStatusCode = 0 :=
  ⟨by decide,
    sendRequest_no_bytes (cancelPrint sampleApi okScript).api silentScript "GET".toList
      "/printer/info".toList none (by decide) (by decide) (by decide)⟩

/-- The header block only grows: what was accumulated stays in front. -/
lemma readLoop_headers (lines : List Bytes) (headerComplete : Bool) (headers response : Bytes) :
    ∃ more, (readLoop lines headerComplete headers response).1 = headers ++ more := by
  induction lines generalizing headerComplete headers response with
  | nil => exact ⟨[], by simp [readLoop]⟩
  | cons line rest ih =>
    rw [readLoop]
    cases headerComplete with
    | false =>
      simp only [Bool.not_false, if_true]
      by_cases hl : line.length ≤ 1
      · rw [if_pos hl]
        obtain ⟨more, h⟩ := ih true (headers ++ (line ++ [LF])) response
        exact ⟨line ++ [LF] ++ more, by rw [h, List.append_assoc]⟩
      · rw [if_neg hl]
        obtain ⟨more, h⟩ := ih false (headers ++ (line ++ [LF])) response
        exact ⟨line ++ [LF] ++ more, by rw [h, List.append_assoc]⟩
    | true =>
      simp only [Bool.not_true, Bool.false_eq_true, if_false]
      by_cases hm : (response ++ line).length > maxMessageLength
      · rw [if_pos hm]
        exact ⟨[], by simp⟩
      · rw [if_neg hm]
        exact ih true headers (response ++ line)

/-- The status code of a response whose first line is
`HTTP/1.1 <code> <reason>` is the value of the code. -/
lemma responseStatus_statusLine (net : ClientScript) (code reason : Bytes) (rest : List Bytes)
    (hcode : threeDigits code)
    (hlines : net.lines = statusLine "1.1".toList code reason :: rest) :
    responseStatus net = (decimalValue code : Int) := by
  have hfirst : ∃ more, responseHeaders net
      = statusLine "1.1".toList code reason ++ [LF] ++ more := by
    unfold responseHeaders
    rw [hlines, readLoop]
    simp only [Bool.not_false, if_true, List.nil_append]
    by_cases hl : (statusLine "1.1".toList code reason).length ≤ 1
    · rw [if_pos hl]
      exact readLoop_headers rest true _ []
    · rw [if_neg hl]
      exact readLoop_headers rest false _ []
  obtain ⟨more, hmore⟩ := hfirst
  have hshape : statusLine "1.1".toList code reason ++ [LF] ++ more
      = "HTTP/1.1".toList ++ ' ' :: (code ++ ' ' :: (reason ++ LF :: more)) := by
    simp [statusLine]
  unfold responseStatus
  rw [hmore, hshape]
  refine extractHttpCode_shape _ code _ _ (by decide) hcode.2 ?_
  have h3 : code.length = 3 := hcode.1
  simp only [List.length_append, List.length_cons, h3]
  have h8 : "HTTP/1.1".toList.length = 8 := rfl
  omega

/-- A text of three decimal digits has the value 200 only when it is `200`. -/
lemma decimalValue_eq_200 (code : Bytes) (hcode : threeDigits code) :
    (decimalValue code : Int) = 200 ↔ code = "200".toList := by
  obtain ⟨hlen, hdigits⟩ := hcode
  match code, hlen, hdigits with
  | [a, b, c], _, hdigits =>
    have ha : isDigit a = true := hdigits a (by simp)
    have hb : isDigit b = true := hdigits b (by simp)
    have hc : isDigit c = true := hdigits c (by simp)
    simp only [isDigit, Bool.and_eq_true, decide_eq_true_eq] at ha hb hc
    constructor
    · intro h
      have hval : 10 * (10 * (a.toNat - 48) + (b.toNat - 48)) + (c.toNat - 48) = 200 := by
        have hnat : decimalValue [a, b, c] = 200 := by exact_mod_cast h
        simpa [decimalValue] using hnat
      have ea : a.toNat = 50 := by omega
      have eb : b.toNat = 48 := by omega
      have ec : c.toNat = 48 := by omega
      have a2 : a = '2' := by rw [← Char.ofNat_toNat a, ea]
      have b0 : b = '0' := by rw [← Char.ofNat_toNat b, eb]
      have c0 : c = '0' := by rw [← Char.ofNat_toNat c, ec]
      rw [a2, b0, c0]
      rfl
    · intro h
      rw [h]
      decide

/-- C10: when the first line of the response is `HTTP/1.1 <code> <reason>`
with a code of three decimal digits, each of `cancelPrint`, `pausePrint`,
`resumePrint`, `emergencyStop`, `restartFirmware` and `restartHost` returns
`true` exactly when the code is `200` and leaves the value of the code as
the status code, whatever header lines and body follow. -/
theorem statusCommands_result (op : KlipperApi → ClientScript → Outcome)
    (hop : op ∈ statusCommands) (self : KlipperApi) (net : ClientScript)
    (code reason : Bytes) (rest : List Bytes) (hclient : self._client = true)
    (hconnect : net.connect = true) (hcode : threeDigits code)
    (hlines : net.lines = statusLine "1.1".toList code reason :: rest) :
    ((op self net).ok = true ↔ code = "200".toList)
      ∧ (op self net).api.httpStatusCode = (decimalValue code : Int) := by
  have hstatus := responseStatus_statusLine net code reason rest hcode hlines
  have h200 := decimalValue_eq_200 code hcode
  have hpost : ∀ endpoint postData : Bytes,
      ((statusIs200 (sendPostToMoonraker self net endpoint postData)).ok = true
          ↔ code = "200".toList)
        ∧ (statusIs200 (sendPostToMoonraker self net endpoint postData)).api.httpStatusCode
          = (decimalValue code : Int) := by
    intro endpoint postData
    obtain ⟨-, hapi⟩ := sendRequest_connected self net "POST".toList endpoint (some postData)
      hclient hconnect
    simp only [statusIs200, sendPostToMoonraker, hapi, hstatus, decide_eq_true_eq]
    exact ⟨h200, trivial⟩
  simp only [statusCommands, List.mem_cons, List.mem_singleton, List.not_mem_nil,
    or_false] at hop
  rcases hop with h | h | h | h | h | h <;> subst h <;> exact hpost _ _

/-- C10 at the two responses of the end-to-end scenario: `HTTP/1.1 200 OK`
with body `{}` and `HTTP/1.1 404 Not Found`. -/
theorem statusCommands_result_witness :
    (((cancelPrint sampleApi okScript).ok = true ↔ "200".toList = "200".toList)
        ∧ (cancelPrint sampleApi okScript).api.httpStatusCode
          = (decimalValue "200".toList : Int))
      ∧ (((cancelPrint sampleApi notFoundScript).ok = true ↔ "404".toList = "200".toList)
        ∧ (cancelPrint sampleApi notFoundScript).api.httpStatusCode
          = (decimalValue "404".toList : Int)) :=
  ⟨statusCommands_result cancelPrint (by simp [statusCommands]) sampleApi okScript
      "200".toList "OK\r".toList ["\r".toList, "\x7b\x7d".toList] (by decide) (by decide)
      (by decide) (by decide),
    statusCommands_result cancelPrint (by simp [statusCommands]) sampleApi notFoundScript
      "404".toList "Not Found\r".toList ["\r".toList] (by decide) (by decide)
      (by decide) (by decide)⟩

/-! ### Temperature commands -/

/-- C11: for a temperature below 0 or above 500, an infinity included, and
any extruder index, `setExtruderTemperature` and `setBedTemperature` return
`false`, make no call on the client (no connect, nothing printed) and leave
the object, its status code included, as it was. -/
theorem setTemperature_out_of_range (self : KlipperApi) (net : ClientScript)
    (temperature : CFloat) (extruder : Nat) (h : temperature < 0 ∨ temperature > 500) :
    (setExtruderTemperature self net (FloatValue.finite temperature) extruder
          = ⟨false, self, []⟩
        ∧ setBedTemperature self net (FloatValue.finite temperature) = ⟨false, self, []⟩)
      ∧ ∀ negative : Bool,
        setExtruderTemperature self net (FloatValue.infinity negative) extruder
            = ⟨false, self, []⟩
          ∧ setBedTemperature self net (FloatValue.infinity negative)
            = ⟨false, self, []⟩ := by
  have hinvalid : isValidTemperature (FloatValue.finite temperature) = false := by
    simp only [isValidTemperature, FloatValue.ge, FloatValue.le, Bool.and_eq_false_iff,
      decide_eq_false_iff_not, not_le, ge_iff_le]
    rcases h with h | h
    · exact Or.inl h
    · exact Or.inr h
  have hinfinite : ∀ negative : Bool,
      isValidTemperature (FloatValue.infinity negative) = false := by
    intro negative
    cases negative <;> rfl
  refine ⟨?_, fun negative => ?_⟩
  · simp [setExtruderTemperature, setBedTemperature, hinvalid]
  · simp [setExtruderTemperature, setBedTemperature, hinfinite negative]

/-- C11 at the temperature 550 and at the temperature -1, on a client whose
previous call ended with status 200. -/
theorem setTemperature_out_of_range_witness :
    (setExtruderTemperature (cancelPrint sampleApi okScript).api okScript
            (FloatValue.finite 550) 0
          = ⟨false, (cancelPrint sampleApi okScript).api, []⟩
        ∧ setBedTemperature (cancelPrint sampleApi okScript).api okScript
            (FloatValue.finite 550)
          = ⟨false, (cancelPrint sampleApi okScript).api, []⟩)
      ∧ (setExtruderTemperature (cancelPrint sampleApi okScript).api okScript
            (FloatValue.finite (-1)) 1
          = ⟨false, (cancelPrint sampleApi okScript).api, []⟩
        ∧ setBedTemperature (cancelPrint sampleApi okScript).api okScript
            (FloatValue.finite (-1))
          = ⟨false, (cancelPrint sampleApi okScript).api, []⟩) :=
  ⟨(setTemperature_out_of_range (cancelPrint sampleApi okScript).api okScript 550 0
      (Or.inr (by norm_num))).1,
    (setTemperature_out_of_range (cancelPrint sampleApi okScript).api okScript (-1) 1
      (Or.inl (by norm_num))).1⟩

lemma roundHalfEven_le (q : CFloat) (bound : Nat) (h0 : 0 ≤ q) (hq : q ≤ bound) :
    roundHalfEven q ≤ bound := by
  have hfloor_nonneg : 0 ≤ ⌊q⌋ := Int.floor_nonneg.mpr h0
  have hfloor_le : ⌊q⌋ ≤ (bound : Int) := by
    exact_mod_cast (Int.floor_le q).trans hq
  have hwhole : ⌊q⌋.toNat ≤ bound := by omega
  by_cases hlt : ⌊q⌋ < (bound : Int)
  · have : ⌊q⌋.toNat + 1 ≤ bound := by omega
    unfold roundHalfEven
    simp only []
    split_ifs <;> omega
  · have heq : ⌊q⌋ = (bound : Int) := le_antisymm hfloor_le (not_lt.mp hlt)
    have hfrac : q - ⌊q⌋ ≤ 0 := by
      rw [heq]
      have : ((bound : Int) : ℚ) = (bound : ℚ) := by norm_cast
      rw [this]
      linarith
    unfold roundHalfEven
    simp only []
    rw [if_pos (lt_of_le_of_lt hfrac (by norm_num))]
    exact hwhole

/-- A value strictly within one half of a natural number rounds to it. -/
lemma roundHalfEven_eq (z : CFloat) (k : Nat) (h0 : 0 ≤ z) (h1 : (k : CFloat) - 1 / 2 < z)
    (h2 : z < k + 1 / 2) : roundHalfEven z = k := by
  have hfloor_nonneg : 0 ≤ ⌊z⌋ := Int.floor_nonneg.mpr h0
  by_cases hk : (k : CFloat) ≤ z
  · have hfloor : ⌊z⌋ = (k : Int) := by
      rw [Int.floor_eq_iff]
      constructor
      · exact_mod_cast hk
      · push_cast
        linarith
    unfold roundHalfEven
    simp only [hfloor]
    have hfrac : z - ((k : Int) : CFloat) < 1 / 2 := by
      push_cast
      linarith
    rw [if_pos hfrac]
    simp
  · have hlt : z < k := not_le.mp hk
    have hkpos : 1 ≤ k := by
      rcases Nat.eq_zero_or_pos k with h | h
      · subst h
        simp at hlt
        linarith
      · exact h
    have hfloor : ⌊z⌋ = (k : Int) - 1 := by
      rw [Int.floor_eq_iff]
      constructor
      · push_cast
        linarith
      · push_cast
        linarith
    unfold roundHalfEven
    simp only [hfloor]
    have hfrac : ¬ (z - (((k : Int) - 1 : Int) : CFloat) < 1 / 2) := by
      push_cast
      linarith
    have hfrac2 : z - (((k : Int) - 1 : Int) : CFloat) > 1 / 2 := by
      push_cast
      linarith
    rw [if_neg hfrac, if_pos hfrac2]
    omega

lemma floor_le_roundHalfEven (z : CFloat) : ⌊z⌋.toNat ≤ roundHalfEven z := by
  unfold roundHalfEven
  simp only []
  split_ifs <;> omega

lemma spacing_pos (q : CFloat) : (0 : CFloat) < 2 ^ spacingExponent q := by positivity

lemma roundF32_nonneg (q : CFloat) (h : 0 ≤ q) : 0 ≤ roundF32 q := by
  unfold roundF32
  simp only [not_lt.mpr h, if_false]
  positivity

/-- The value of the rounding at a positive number whose binade is known. -/
lemma roundF32_eq (q : CFloat) (e : Int) (k : Nat) (hq : 0 < q) (he : -126 ≤ e)
    (hlo : (2 : CFloat) ^ e ≤ q) (hhi : q < (2 : CFloat) ^ (e + 1))
    (h1 : (k : CFloat) - 1 / 2 < q / 2 ^ (e - 23)) (h2 : q / 2 ^ (e - 23) < k + 1 / 2) :
    roundF32 q = k * 2 ^ (e - 23) := by
  have habs : |q| = q := abs_of_pos hq
  have hlog : Int.log 2 q = e := by
    apply le_antisymm
    · have := (Int.lt_zpow_iff_log_lt (b := 2) (by norm_num) hq (x := e + 1)).mp
        (by exact_mod_cast hhi)
      omega
    · exact (Int.zpow_le_iff_le_log (b := 2) (by norm_num) hq).mp (by exact_mod_cast hlo)
  have hexp : spacingExponent q = e - 23 := by
    unfold spacingExponent
    rw [habs, hlog, max_eq_left he]
  unfold roundF32
  simp only [hexp, habs, not_lt.mpr hq.le, if_false]
  rw [roundHalfEven_eq _ k (by positivity) h1 h2]

lemma roundF32_neg (q : CFloat) (hq : 0 < q) : roundF32 (-q) = -roundF32 q := by
  have hexp : spacingExponent (-q) = spacingExponent q := by
    unfold spacingExponent
    rw [abs_neg]
  unfold roundF32
  simp only [hexp, abs_neg, neg_lt_zero, hq, if_true, not_lt.mpr hq.le, if_false]

lemma roundF32_zero : roundF32 0 = 0 := by
  unfold roundF32
  simp [roundHalfEven]

lemma steps_le (q : CFloat) (h : 0 ≤ q) :
    q / 2 ^ spacingExponent q ≤ ((2 ^ 24 : Nat) : CFloat) := by
  have hlt : q < (2 : CFloat) ^ (Int.log 2 q + 1) := by
    exact_mod_cast Int.lt_zpow_succ_log_self (b := 2) (by norm_num) q
  have hexp : Int.log 2 q + 1 ≤ spacingExponent q + 24 := by
    unfold spacingExponent
    rw [abs_of_nonneg h]
    have := le_max_left (Int.log 2 q) (-126)
    omega
  have hle : q ≤ (2 : CFloat) ^ (spacingExponent q + 24) :=
    hlt.le.trans (zpow_le_zpow_right₀ (by norm_num) hexp)
  rw [div_le_iff₀ (by positivity)]
  calc q ≤ (2 : CFloat) ^ (spacingExponent q + 24) := hle
    _ = ((2 ^ 24 : Nat) : CFloat) * 2 ^ spacingExponent q := by
      rw [zpow_add₀ (by norm_num)]
      push_cast
      ring

lemma roundF32_representable (q : CFloat) (h : 0 ≤ q) : Representable (roundF32 q) := by
  refine ⟨roundHalfEven (|q| / 2 ^ spacingExponent q), spacingExponent q, ?_, ?_, ?_⟩
  · unfold spacingExponent
    have := le_max_right (Int.log 2 |q|) (-126)
    omega
  · apply roundHalfEven_le
    · positivity
    · rw [abs_of_nonneg h]
      exact steps_le q h
  · unfold roundF32
    simp only [not_lt.mpr h, if_false]

/-- Rounding does not fall below a binary32 value that the argument
reaches. -/
lemma le_roundF32 (x y : CFloat) (hy : Representable y) (hxy : y ≤ x) : y ≤ roundF32 x := by
  obtain ⟨k, g, hg, hk, rfl⟩ := hy
  have hy0 : (0 : CFloat) ≤ k * 2 ^ g := by positivity
  have hx0 : 0 ≤ x := hy0.trans hxy
  rcases Nat.eq_zero_or_pos k with hk0 | hkpos
  · subst hk0
    simpa using roundF32_nonneg x hx0
  have hypos : (0 : CFloat) < k * 2 ^ g := by positivity
  have hxpos : 0 < x := lt_of_lt_of_le hypos hxy
  have hfloor : ((⌊x / 2 ^ spacingExponent x⌋.toNat : Nat) : CFloat) * 2 ^ spacingExponent x
      ≤ roundF32 x := by
    unfold roundF32
    simp only [not_lt.mpr hx0, if_false, abs_of_nonneg hx0]
    apply mul_le_mul_of_nonneg_right _ (by positivity)
    exact_mod_cast floor_le_roundHalfEven _
  refine le_trans ?_ hfloor
  have hzpos : (0 : CFloat) ≤ x / 2 ^ spacingExponent x := by positivity
  have hfloor0 : 0 ≤ ⌊x / 2 ^ spacingExponent x⌋ := Int.floor_nonneg.mpr hzpos
  have hcast : ((⌊x / 2 ^ spacingExponent x⌋.toNat : Nat) : CFloat)
      = ((⌊x / 2 ^ spacingExponent x⌋ : Int) : CFloat) := by
    have : ((⌊x / 2 ^ spacingExponent x⌋.toNat : Nat) : Int) = ⌊x / 2 ^ spacingExponent x⌋ :=
      Int.toNat_of_nonneg hfloor0
    exact_mod_cast congrArg (fun z : Int => (z : CFloat)) this
  rw [hcast]
  by_cases hcase : spacingExponent x ≤ g
  · -- the value lies on the grid of `x`
    obtain ⟨d, hd⟩ : ∃ d : Nat, g = spacingExponent x + d :=
      ⟨(g - spacingExponent x).toNat, by omega⟩
    have hval : (k : CFloat) * 2 ^ g
        = (((k * 2 ^ d : Nat) : Int) : CFloat) * 2 ^ spacingExponent x := by
      rw [hd, zpow_add₀ (by norm_num), zpow_natCast]
      push_cast
      ring
    rw [hval]
    apply mul_le_mul_of_nonneg_right _ (by positivity)
    have hle : (((k * 2 ^ d : Nat) : Int) : CFloat) ≤ x / 2 ^ spacingExponent x := by
      rw [le_div_iff₀ (by positivity), ← hval]
      exact hxy
    exact_mod_cast Int.le_floor.mpr hle
  · -- the value is below the binade of `x`
    have hg2 : g + 24 ≤ spacingExponent x + 23 := by omega
    have hlog : spacingExponent x = Int.log 2 x - 23 := by
      unfold spacingExponent at hcase hg2 ⊢
      rw [abs_of_nonneg hx0] at hcase hg2 ⊢
      rcases max_cases (Int.log 2 x) (-126) with ⟨h, _⟩ | ⟨h, _⟩
      · rw [h]
      · rw [h] at hg2
        omega
    have hbinade : (2 : CFloat) ^ (spacingExponent x + 23) ≤ x := by
      rw [hlog]
      have := Int.zpow_log_le_self (b := 2) (r := x) (by norm_num) hxpos
      simpa using this
    have hyle : (k : CFloat) * 2 ^ g ≤ (2 : CFloat) ^ (spacingExponent x + 23) := by
      calc (k : CFloat) * 2 ^ g ≤ ((2 ^ 24 : Nat) : CFloat) * 2 ^ g := by
            apply mul_le_mul_of_nonneg_right _ (by positivity)
            exact_mod_cast hk
        _ = (2 : CFloat) ^ (g + 24) := by
            rw [zpow_add₀ (by norm_num)]
            push_cast
            ring
        _ ≤ (2 : CFloat) ^ (spacingExponent x + 23) :=
            zpow_le_zpow_right₀ (by norm_num) hg2
    refine hyle.trans ?_
    have hval : (2 : CFloat) ^ (spacingExponent x + 23)
        = (((2 ^ 23 : Nat) : Int) : CFloat) * 2 ^ spacingExponent x := by
      rw [zpow_add₀ (by norm_num)]
      push_cast
      ring
    rw [hval]
    apply mul_le_mul_of_nonneg_right _ (by positivity)
    have hle : (((2 ^ 23 : Nat) : Int) : CFloat) ≤ x / 2 ^ spacingExponent x := by
      rw [le_div_iff₀ (by positivity), ← hval]
      exact hbinade
    exact_mod_cast Int.le_floor.mpr hle

lemma spacingExponent_eq (q : CFloat) (e : Int) (hq : 0 < q) (he : -126 ≤ e)
    (hlo : (2 : CFloat) ^ e ≤ q) (hhi : q < (2 : CFloat) ^ (e + 1)) :
    spacingExponent q = e - 23 := by
  have hlog : Int.log 2 q = e := by
    apply le_antisymm
    · have := (Int.lt_zpow_iff_log_lt (b := 2) (by norm_num) hq (x := e + 1)).mp
        (by exact_mod_cast hhi)
      omega
    · exact (Int.zpow_le_iff_le_log (b := 2) (by norm_num) hq).mp (by exact_mod_cast hlo)
  unfold spacingExponent
  rw [abs_of_pos hq, hlog, max_eq_left he]

/-- A tie goes to the even significand: `2 ^ 24 + 1` rounds down to
`2 ^ 24`, and `2 ^ 24 + 3` up to `2 ^ 24 + 4`. -/
lemma roundF32_ties :
    roundF32 16777217 = 16777216 ∧ roundF32 16777219 = 16777220 := by
  have hexp1 := spacingExponent_eq 16777217 24 (by norm_num) (by norm_num) (by norm_num)
    (by norm_num)
  have hexp2 := spacingExponent_eq 16777219 24 (by norm_num) (by norm_num) (by norm_num)
    (by norm_num)
  have hfloor1 : ⌊(16777217 / 2 : CFloat)⌋ = 8388608 := by
    rw [Int.floor_eq_iff]
    constructor <;> norm_num
  have hfloor2 : ⌊(16777219 / 2 : CFloat)⌋ = 8388609 := by
    rw [Int.floor_eq_iff]
    constructor <;> norm_num
  have hround1 : roundHalfEven (16777217 / 2) = 8388608 := by
    unfold roundHalfEven
    simp only [hfloor1]
    norm_num
    rfl
  have hround2 : roundHalfEven (16777219 / 2) = 8388610 := by
    unfold roundHalfEven
    simp only [hfloor2]
    norm_num
    rfl
  have hz1 : |(16777217 : CFloat)| / 2 ^ ((24 : Int) - 23) = 16777217 / 2 := by norm_num
  have hz2 : |(16777219 : CFloat)| / 2 ^ ((24 : Int) - 23) = 16777219 / 2 := by norm_num
  constructor
  · unfold roundF32
    simp only [hexp1, hz1, hround1]
    norm_num
  · unfold roundF32
    simp only [hexp2, hz2, hround2]
    norm_num

/-! #### Values the examples use -/

lemma roundF32_600 : roundF32 600 = 600 := by
  rw [roundF32_eq 600 9 9830400 (by norm_num) (by norm_num) (by norm_num) (by norm_num)
    (by norm_num) (by norm_num)]
  norm_num

lemma roundF32_tenth : roundF32 (1 / 10) = 13421773 / 134217728 := by
  rw [roundF32_eq (1 / 10) (-4) 13421773 (by norm_num) (by norm_num) (by norm_num)
    (by norm_num) (by norm_num) (by norm_num)]
  norm_num

lemma roundF32_half : roundF32 (1 / 2) = 1 / 2 := by
  rw [roundF32_eq (1 / 2) (-1) 8388608 (by norm_num) (by norm_num) (by norm_num)
    (by norm_num) (by norm_num) (by norm_num)]
  norm_num

lemma roundF32_quarter : roundF32 (1 / 4) = 1 / 4 := by
  rw [roundF32_eq (1 / 4) (-2) 8388608 (by norm_num) (by norm_num) (by norm_num)
    (by norm_num) (by norm_num) (by norm_num)]
  norm_num

lemma roundF32_2 : roundF32 2 = 2 := by
  rw [roundF32_eq 2 1 8388608 (by norm_num) (by norm_num) (by norm_num) (by norm_num)
    (by norm_num) (by norm_num)]
  norm_num

lemma roundF32_250 : roundF32 250 = 250 := by
  rw [roundF32_eq 250 7 16384000 (by norm_num) (by norm_num) (by norm_num) (by norm_num)
    (by norm_num) (by norm_num)]
  norm_num

lemma roundF32_300 : roundF32 300 = 300 := by
  rw [roundF32_eq 300 8 9830400 (by norm_num) (by norm_num) (by norm_num) (by norm_num)
    (by norm_num) (by norm_num)]
  norm_num

lemma roundF32_500 : roundF32 500 = 500 := by
  rw [roundF32_eq 500 8 16384000 (by norm_num) (by norm_num) (by norm_num) (by norm_num)
    (by norm_num) (by norm_num)]
  norm_num

lemma roundF32_1000 : roundF32 1000 = 1000 := by
  rw [roundF32_eq 1000 9 16384000 (by norm_num) (by norm_num) (by norm_num) (by norm_num)
    (by norm_num) (by norm_num)]
  norm_num

lemma roundF32_1200 : roundF32 1200 = 1200 := by
  rw [roundF32_eq 1200 10 9830400 (by norm_num) (by norm_num) (by norm_num) (by norm_num)
    (by norm_num) (by norm_num)]
  norm_num

lemma roundF32_5400 : roundF32 5400 = 5400 := by
  rw [roundF32_eq 5400 12 11059200 (by norm_num) (by norm_num) (by norm_num) (by norm_num)
    (by norm_num) (by norm_num)]
  norm_num

/-- The quotient of 600 by the `float` nearest to one tenth rounds up to
6000. -/
lemma roundF32_600_by_tenth : roundF32 (600 / (13421773 / 134217728)) = 6000 := by
  rw [roundF32_eq (600 / (13421773 / 134217728)) 12 12288000 (by norm_num) (by norm_num)
    (by norm_num) (by norm_num) (by norm_num) (by norm_num)]
  norm_num

/-! #### The `%.1f` rendering -/

lemma asObject_get_of_not_containsKey (j : Json) (key : Bytes)
    (h : j.containsKey key = false) : (j.get key).asObject = Json.null := by
  cases j with
  | obj ms =>
    cases hm : Json.member ms key with
    | none => simp [Json.get, hm, Json.asObject]
    | some v =>
      simp [Json.containsKey, hm] at h
  | _ => rfl

lemma projectPrintStats_eq (lib : JsonLibrary) (ps : Json) (job : PrintJobInfo) :
    projectPrintStats lib ps job
      = { job with
          filename :=
            if ps.containsKey "filename".toList then
              toCharArray (lib.asString (ps.get "filename".toList)) 64
            else job.filename
          state :=
            if ps.containsKey "state".toList then
              toCharArray (lib.asString (ps.get "state".toList)) 16
            else job.state
          isPrinting :=
            if ps.containsKey "state".toList then
              decide (lib.asString (ps.get "state".toList) = "printing".toList)
            else job.isPrinting
          isPaused :=
            if ps.containsKey "state".toList then
              decide (lib.asString (ps.get "state".toList) = "paused".toList)
            else job.isPaused
          isComplete :=
            if ps.containsKey "state".toList then
              decide (lib.asString (ps.get "state".toList) = "complete".toList)
            else job.isComplete
          isCancelled :=
            if ps.containsKey "state".toList then
              decide (lib.asString (ps.get "state".toList) = "cancelled".toList)
            else job.isCancelled
          hasError :=
            if ps.containsKey "state".toList then
              decide (lib.asString (ps.get "state".toList) = "error".toList)
            else job.hasError
          printTime :=
            if ps.containsKey "print_duration".toList then
              lib.asUInt32 (ps.get "print_duration".toList)
            else job.printTime
          estimatedTime :=
            if ps.containsKey "total_duration".toList then
              lib.asUInt32 (ps.get "total_duration".toList)
            else job.estimatedTime } := by
  unfold projectPrintStats
  split_ifs <;> rfl

lemma projectSdcard_eq (lib : JsonLibrary) (sd : Json) (job : PrintJobInfo) :
    projectSdcard lib sd job
      = { job with
          progress :=
            if sd.containsKey "progress".toList then lib.asFloat (sd.get "progress".toList)
            else job.progress
          fileSize :=
            if sd.containsKey "file_size".toList then lib.asUInt32 (sd.get "file_size".toList)
            else job.fileSize
          printedBytes :=
            if sd.containsKey "file_size".toList then
              toUInt32 (floatMul
                (if sd.containsKey "progress".toList then
                  lib.asFloat (sd.get "progress".toList) else job.progress)
                (floatOfNat (lib.asUInt32 (sd.get "file_size".toList))))
            else job.printedBytes } := by
  unfold projectSdcard
  split_ifs <;> rfl

lemma projectPrintStats_null (lib : JsonLibrary) (job : PrintJobInfo) :
    projectPrintStats lib Json.null job = job := by
  simp [projectPrintStats, Json.containsKey]

lemma projectSdcard_null (lib : JsonLibrary) (job : PrintJobInfo) :
    projectSdcard lib Json.null job = job := by
  simp [projectSdcard, Json.containsKey]

/-- The job projection is the three blocks in sequence; an absent object
acts as an object without keys. -/
lemma projectJob_eq (lib : JsonLibrary) (status : Json) (job : PrintJobInfo) :
    projectJob lib status job
      = calculateTimeLeft
          (projectSdcard lib (status.get "virtual_sdcard".toList).asObject
            (projectPrintStats lib (status.get "print_stats".toList).asObject job)) := by
  unfold projectJob
  cases h1 : status.containsKey "print_stats".toList <;>
    cases h2 : status.containsKey "virtual_sdcard".toList <;>
    simp only [Bool.false_eq_true, if_true, if_false]
  · rw [asObject_get_of_not_containsKey status _ h1,
      asObject_get_of_not_containsKey status _ h2, projectPrintStats_null,
      projectSdcard_null]
  · rw [asObject_get_of_not_containsKey status _ h1, projectPrintStats_null]
  · rw [asObject_get_of_not_containsKey status _ h2, projectSdcard_null]

/-! ### Print job -/

/-- A successful response makes `getPrintJob` return `true` with the job
snapshot projected from the status object; nothing else changes but the
status code. -/
lemma getPrintJob_of_successful (lib : JsonLibrary) (self : KlipperApi) (net : ClientScript)
    (hclient : self._client = true) (hconnect : net.connect = true)
    (hs : successful lib net) :
    (getPrintJob lib self net).ok = true
      ∧ (getPrintJob lib self net).api
          = { self with
              httpStatusCode := 200
              printJob := projectJob lib (statusObject lib net) self.printJob } := by
  obtain ⟨hstatus, hresult, hkey⟩ := hs
  have hbody : responseBody net ≠ [] := by
    intro h
    rw [h, lib.deserializeJson_nil] at hresult
    simp [Json.containsKey] at hresult
  obtain ⟨hresp, hapi⟩ := sendRequest_connected self net "GET".toList
    "/printer/objects/query?print_stats&virtual_sdcard".toList none hclient hconnect
  simp only [getPrintJob, sendGetToMoonraker, hresp, hapi, hstatus, hresult, hkey,
    List.length_eq_zero, hbody, ne_eq, not_true_eq_false, or_self, if_false, Bool.not_true,
    Bool.false_eq_true, statusObject]
  exact ⟨trivial, trivial⟩

lemma truncate_natCast (n : Nat) : truncate (n : CFloat) = (n : Int) := by
  unfold truncate
  rw [if_pos (by positivity)]
  exact Int.floor_natCast n

lemma truncate_intCast (z : Int) : truncate (z : CFloat) = z := by
  unfold truncate
  split_ifs
  · exact Int.floor_intCast z
  · exact Int.ceil_intCast z

lemma toUInt32_natCast (n : Nat) (hn : n < 4294967296) : toUInt32 (n : CFloat) = n := by
  unfold toUInt32
  rw [truncate_natCast]
  omega

/-- A value whose integer part fits 32 bits converts to that integer part. -/
lemma toUInt32_of_range (q : CFloat) (h0 : 0 ≤ q) (hlt : q < 4294967296) :
    ((toUInt32 q : Nat) : Int) = truncate q := by
  have htrunc : truncate q = ⌊q⌋ := by
    unfold truncate
    rw [if_pos h0]
  have hfloor0 : 0 ≤ ⌊q⌋ := Int.floor_nonneg.mpr h0
  have hfloorlt : ⌊q⌋ < 4294967296 := by
    have : (⌊q⌋ : ℚ) < ((4294967296 : Int) : ℚ) := lt_of_le_of_lt (Int.floor_le q) (by
      push_cast
      exact hlt)
    exact_mod_cast this
  unfold toUInt32
  rw [htrunc]
  omega

lemma calculateTimeLeft_eq (job : PrintJobInfo) :
    calculateTimeLeft job
      = { job with
          timeLeft := if timeLeftGuard job then toUInt32 (timeLeftEstimate job)
            else job.timeLeft } := by
  unfold calculateTimeLeft
  split_ifs <;> rfl

/-- Every field of the job snapshot after the projection of a status object,
in terms of the keys the object carries. -/
lemma projectJob_fields (lib : JsonLibrary) (status : Json) (job : PrintJobInfo) :
    projectJob lib status job
      = { filename :=
            if hasField status "print_stats".toList "filename".toList then
              toCharArray
                (lib.asString (fieldOf status "print_stats".toList "filename".toList)) 64
            else job.filename
          state :=
            if hasField status "print_stats".toList "state".toList then
              toCharArray (lib.asString (fieldOf status "print_stats".toList "state".toList)) 16
            else job.state
          progress := projectedProgress lib status job
          printTime := projectedPrintTime lib status job
          estimatedTime :=
            if hasField status "print_stats".toList "total_duration".toList then
              lib.asUInt32 (fieldOf status "print_stats".toList "total_duration".toList)
            else job.estimatedTime
          timeLeft :=
            if decide (projectedProgress lib status job > 0)
                && decide (projectedPrintTime lib status job > 0) then
              toUInt32 (floatSub
                (floatDiv (floatOfNat (projectedPrintTime lib status job))
                  (projectedProgress lib status job))
                (floatOfNat (projectedPrintTime lib status job)))
            else job.timeLeft
          fileSize :=
            if hasField status "virtual_sdcard".toList "file_size".toList then
              lib.asUInt32 (fieldOf status "virtual_sdcard".toList "file_size".toList)
            else job.fileSize
          printedBytes :=
            if hasField status "virtual_sdcard".toList "file_size".toList then
              toUInt32 (floatMul (projectedProgress lib status job)
                (floatOfNat
                  (lib.asUInt32 (fieldOf status "virtual_sdcard".toList "file_size".toList))))
            else job.printedBytes
          isPrinting :=
            if hasField status "print_stats".toList "state".toList then
              decide (lib.asString (fieldOf status "print_stats".toList "state".toList)
                = "printing".toList)
            else job.isPrinting
          isPaused :=
            if hasField status "print_stats".toList "state".toList then
              decide (lib.asString (fieldOf status "print_stats".toList "state".toList)
                = "paused".toList)
            else job.isPaused
          isComplete :=
            if hasField status "print_stats".toList "state".toList then
              decide (lib.asString (fieldOf status "print_stats".toList "state".toList)
                = "complete".toList)
            else job.isComplete
          isCancelled :=
            if hasField status "print_stats".toList "state".toList then
              decide (lib.asString (fieldOf status "print_stats".toList "state".toList)
                = "cancelled".toList)
            else job.isCancelled
          hasError :=
            if hasField status "print_stats".toList "state".toList then
              decide (lib.asString (fieldOf status "print_stats".toList "state".toList)
                = "error".toList)
            else job.hasError
          reserved := job.reserved } := by
  rw [projectJob_eq, projectPrintStats_eq, projectSdcard_eq, calculateTimeLeft_eq]
  rfl

lemma fixedLibrary_asUInt32_natCast (tree : Json) (n : Nat) (hn : n < 4294967296) :
    (fixedLibrary tree).asUInt32 (Json.num (n : Rat)) = n := by
  show (truncate (n : CFloat) % 4294967296).toNat = n
  rw [truncate_natCast]
  omega

lemma fixedLibrary_asFloat_num (tree : Json) (q : Rat) :
    (fixedLibrary tree).asFloat (Json.num q) = roundF32 q := rfl

/-- The projected progress when the status object carries the key. -/
lemma projectedProgress_of_field (lib : JsonLibrary) (status : Json) (job : PrintJobInfo)
    (value : Json) (hkey : hasField status "virtual_sdcard".toList "progress".toList = true)
    (hvalue : fieldOf status "virtual_sdcard".toList "progress".toList = value) :
    projectedProgress lib status job = lib.asFloat value := by
  unfold projectedProgress
  rw [if_pos hkey, hvalue]

/-- A value whose integer part fits the unsigned 32-bit range converts to
that integer part. -/
lemma toUInt32_of_truncate (q : CFloat) (h0 : 0 ≤ truncate q)
    (hlt : truncate q < 4294967296) : ((toUInt32 q : Nat) : Int) = truncate q := by
  unfold toUInt32
  omega

/-- The job snapshot after the response of `overProgressBody`: progress 2 and
print time 600. -/
lemma overProgress_job :
    (getPrintJob (fixedLibrary overProgressDocument) sampleApi
        (jsonScript overProgressBody)).ok = true
      ∧ (getPrintJob (fixedLibrary overProgressDocument) sampleApi
          (jsonScript overProgressBody)).api.printJob.progress = 2
      ∧ (getPrintJob (fixedLibrary overProgressDocument) sampleApi
          (jsonScript overProgressBody)).api.printJob.printTime = 600 := by
  obtain ⟨hok, hapi⟩ := getPrintJob_of_successful (fixedLibrary overProgressDocument) sampleApi
    (jsonScript overProgressBody) (by decide) (by decide) ⟨by decide, rfl, rfl⟩
  have h600 : (fixedLibrary overProgressDocument).asUInt32 (Json.num 600) = 600 := by
    have h := fixedLibrary_asUInt32_natCast overProgressDocument 600 (by norm_num)
    simpa using h
  refine ⟨hok, ?_, ?_⟩
  · rw [hapi]
    simp only [projectJob_fields]
    rw [projectedProgress_of_field (fixedLibrary overProgressDocument)
      (statusObject (fixedLibrary overProgressDocument) (jsonScript overProgressBody)) _
      (Json.num 2) rfl rfl, fixedLibrary_asFloat_num, roundF32_2]
  · rw [hapi, projectJob_fields]
    exact h600

/-- The job snapshot after the response of `halfProgressBody`: progress 0.5
and print time 600. -/
lemma halfProgress_job :
    (getPrintJob (fixedLibrary halfProgressDocument) sampleApi
          (jsonScript halfProgressBody)).api.printJob.progress = 1 / 2
      ∧ (getPrintJob (fixedLibrary halfProgressDocument) sampleApi
          (jsonScript halfProgressBody)).api.printJob.printTime = 600 := by
  obtain ⟨-, hapi⟩ := getPrintJob_of_successful (fixedLibrary halfProgressDocument) sampleApi
    (jsonScript halfProgressBody) (by decide) (by decide) ⟨by decide, rfl, rfl⟩
  have h600 : (fixedLibrary halfProgressDocument).asUInt32 (Json.num 600) = 600 := by
    have h := fixedLibrary_asUInt32_natCast halfProgressDocument 600 (by norm_num)
    simpa using h
  constructor
  · rw [hapi]
    simp only [projectJob_fields]
    rw [projectedProgress_of_field (fixedLibrary halfProgressDocument)
      (statusObject (fixedLibrary halfProgressDocument) (jsonScript halfProgressBody)) _
      (Json.num (1 / 2)) rfl rfl, fixedLibrary_asFloat_num, roundF32_half]
  · rw [hapi, projectJob_fields]
    exact h600

/-- The job snapshot after the response of `tenthProgressBody`: the progress
is the `float` nearest to 0.1, the print time 600. -/
lemma tenthProgress_job :
    (getPrintJob (fixedLibrary tenthProgressDocument) sampleApi
          (jsonScript tenthProgressBody)).api.printJob.progress = 13421773 / 134217728
      ∧ (getPrintJob (fixedLibrary tenthProgressDocument) sampleApi
          (jsonScript tenthProgressBody)).api.printJob.printTime = 600 := by
  obtain ⟨-, hapi⟩ := getPrintJob_of_successful (fixedLibrary tenthProgressDocument) sampleApi
    (jsonScript tenthProgressBody) (by decide) (by decide) ⟨by decide, rfl, rfl⟩
  have h600 : (fixedLibrary tenthProgressDocument).asUInt32 (Json.num 600) = 600 := by
    have h := fixedLibrary_asUInt32_natCast tenthProgressDocument 600 (by norm_num)
    simpa using h
  constructor
  · rw [hapi]
    simp only [projectJob_fields]
    rw [projectedProgress_of_field (fixedLibrary tenthProgressDocument)
      (statusObject (fixedLibrary tenthProgressDocument) (jsonScript tenthProgressBody)) _
      (Json.num (1 / 10)) rfl rfl, fixedLibrary_asFloat_num, roundF32_tenth]
  · rw [hapi, projectJob_fields]
    exact h600

/-- The `float` computation of the time left at progress 2 and print time
600. -/
lemma timeLeftValue_over :
    roundF32 (roundF32 (roundF32 ((600 : Nat) : CFloat) / 2) - roundF32 ((600 : Nat) : CFloat))
      = ((-300 : Int) : CFloat) := by
  have h1 : ((600 : Nat) : CFloat) = 600 := by norm_num
  have h2 : (600 : CFloat) / 2 = 300 := by norm_num
  have h3 : (300 : CFloat) - 600 = -300 := by norm_num
  rw [h1, roundF32_600, h2, roundF32_300, h3, roundF32_neg 300 (by norm_num), roundF32_300]
  norm_num

/-- The `float` computation of the time left at progress 0.5 and print time
600. -/
lemma timeLeftValue_half :
    roundF32 (roundF32 (roundF32 ((600 : Nat) : CFloat) / (1 / 2))
        - roundF32 ((600 : Nat) : CFloat))
      = ((600 : Nat) : CFloat) := by
  have h1 : ((600 : Nat) : CFloat) = 600 := by norm_num
  have h2 : (600 : CFloat) / (1 / 2) = 1200 := by norm_num
  have h3 : (1200 : CFloat) - 600 = 600 := by norm_num
  rw [h1, roundF32_600, h2, roundF32_1200, h3, roundF32_600]

/-- The `float` computation of the time left at the `float` nearest to 0.1
and print time 600: the quotient rounds up to 6000. -/
lemma timeLeftValue_tenth :
    roundF32 (roundF32 (roundF32 ((600 : Nat) : CFloat) / (13421773 / 134217728))
        - roundF32 ((600 : Nat) : CFloat))
      = ((5400 : Nat) : CFloat) := by
  have h1 : ((600 : Nat) : CFloat) = 600 := by norm_num
  have h3 : (6000 : CFloat) - 600 = 5400 := by norm_num
  have h4 : ((5400 : Nat) : CFloat) = 5400 := by norm_num
  rw [h1, roundF32_600, roundF32_600_by_tenth, h3, roundF32_5400, h4]

/-- The `float` operations of the time-left calculation, rounding by
rounding. -/
lemma floatTimeLeft_eq (printTime : Nat) (progress : CFloat) :
    floatSub (floatDiv (floatOfNat printTime) progress) (floatOfNat printTime)
      = roundF32 (roundF32 (roundF32 (printTime : CFloat) / progress)
          - roundF32 (printTime : CFloat)) := rfl

lemma floatMul_natCast (a : CFloat) (n : Nat) :
    floatMul a (floatOfNat n) = roundF32 (a * roundF32 (n : CFloat)) := rfl

lemma timeLeftEstimate_eq (job : PrintJobInfo) :
    timeLeftEstimate job
      = roundF32 (roundF32 (roundF32 (job.printTime : CFloat) / job.progress)
          - roundF32 (job.printTime : CFloat)) := rfl

/-- C13 as stated fails in two ways.  With progress 2 and a print duration of
600 the guard holds, the quantity `(printTime / progress) - printTime`
truncates to -300, and the unsigned `timeLeft` cannot equal it.  With the
progress 0.1 and a print duration of 600 the stored progress is the `float`
nearest to 0.1, the quantity `(printTime / progress) - printTime` over the
stored values truncates to 5399, and `timeLeft` is 5400, the result of the
`float` division and subtraction. -/
theorem getPrintJob_timeLeft_negative :
    ((getPrintJob (fixedLibrary overProgressDocument) sampleApi
          (jsonScript overProgressBody)).ok = true
        ∧ (getPrintJob (fixedLibrary overProgressDocument) sampleApi
            (jsonScript overProgressBody)).api.printJob.progress = 2
        ∧ (getPrintJob (fixedLibrary overProgressDocument) sampleApi
            (jsonScript overProgressBody)).api.printJob.printTime = 600
        ∧ truncate ((600 : CFloat) / 2 - 600) = -300
        ∧ (((getPrintJob (fixedLibrary overProgressDocument) sampleApi
              (jsonScript overProgressBody)).api.printJob.timeLeft : Nat) : Int)
            ≠ truncate ((600 : CFloat) / 2 - 600))
      ∧ ((getPrintJob (fixedLibrary tenthProgressDocument) sampleApi
            (jsonScript tenthProgressBody)).api.printJob.progress = 13421773 / 134217728
        ∧ (getPrintJob (fixedLibrary tenthProgressDocument) sampleApi
            (jsonScript tenthProgressBody)).api.printJob.printTime = 600
        ∧ truncate ((600 : CFloat) / (13421773 / 134217728) - 600) = 5399
        ∧ (getPrintJob (fixedLibrary tenthProgressDocument) sampleApi
            (jsonScript tenthProgressBody)).api.printJob.timeLeft = 5400) := by
  obtain ⟨hok, hprogress, hprintTime⟩ := overProgress_job
  have hexact : truncate ((600 : CFloat) / 2 - 600) = -300 := by
    have hval : (600 : CFloat) / 2 - 600 = ((-300 : Int) : CFloat) := by norm_num
    rw [hval, truncate_intCast]
  have hexact2 : truncate ((600 : CFloat) / (13421773 / 134217728) - 600) = 5399 := by
    have hpos : (0 : CFloat) ≤ 600 / (13421773 / 134217728) - 600 := by norm_num
    unfold truncate
    rw [if_pos hpos, Int.floor_eq_iff]
    constructor <;> norm_num
  have htimeLeft : (getPrintJob (fixedLibrary tenthProgressDocument) sampleApi
      (jsonScript tenthProgressBody)).api.printJob.timeLeft = 5400 := by
    obtain ⟨-, hapi⟩ := getPrintJob_of_successful (fixedLibrary tenthProgressDocument)
      sampleApi (jsonScript tenthProgressBody) (by decide) (by decide) ⟨by decide, rfl, rfl⟩
    have hp := tenthProgress_job.1
    have ht := tenthProgress_job.2
    rw [hapi] at hp ht ⊢
    simp only [projectJob_fields] at hp ht ⊢
    rw [hp, ht, if_pos (by norm_num), floatTimeLeft_eq, timeLeftValue_tenth]
    exact toUInt32_natCast 5400 (by norm_num)
  refine ⟨⟨hok, hprogress, hprintTime, hexact, ?_⟩,
    tenthProgress_job.1, tenthProgress_job.2, hexact2, htimeLeft⟩
  rw [hexact]
  omega

/-- C13 (amended): after a successful `getPrintJob`, if the projected
progress and print time are positive, `timeLeft` is the result of the
`float` computation (the print time converted to `float`, divided by the
progress, the print time subtracted, each step rounded to the nearest
`float`) truncated to an integer, whenever that integer lies in the range of
the unsigned 32-bit field; if the progress is not positive or the print time
is 0, `timeLeft` keeps the value it had before the call. -/
theorem getPrintJob_timeLeft (lib : JsonLibrary) (self : KlipperApi) (net : ClientScript)
    (hclient : self._client = true) (hconnect : net.connect = true)
    (hs : successful lib net) :
    (∀ (progress : CFloat) (printTime : Nat),
        (getPrintJob lib self net).api.printJob.progress = progress →
        (getPrintJob lib self net).api.printJob.printTime = printTime →
        progress > 0 → printTime > 0 →
        0 ≤ truncate (roundF32 (roundF32 (roundF32 (printTime : CFloat) / progress)
          - roundF32 (printTime : CFloat))) →
        truncate (roundF32 (roundF32 (roundF32 (printTime : CFloat) / progress)
          - roundF32 (printTime : CFloat))) < 4294967296 →
        (((getPrintJob lib self net).api.printJob.timeLeft : Nat) : Int)
          = truncate (roundF32 (roundF32 (roundF32 (printTime : CFloat) / progress)
              - roundF32 (printTime : CFloat))))
      ∧ ((getPrintJob lib self net).api.printJob.progress ≤ 0
          ∨ (getPrintJob lib self net).api.printJob.printTime = 0 →
        (getPrintJob lib self net).api.printJob.timeLeft = self.printJob.timeLeft) := by
  obtain ⟨-, hapi⟩ := getPrintJob_of_successful lib self net hclient hconnect hs
  rw [hapi]
  simp only [projectJob_fields]
  constructor
  · intro progress printTime hprogress hprintTime hp ht h0 hlt
    rw [hprogress, hprintTime, if_pos (by simp [hp, ht]), floatTimeLeft_eq]
    exact toUInt32_of_truncate _ h0 hlt
  · intro h
    rw [if_neg]
    rcases h with h | h
    · simp [not_lt.mpr h]
    · simp [h]

lemma halfProgress_estimate :
    timeLeftEstimate (getPrintJob (fixedLibrary halfProgressDocument) sampleApi
        (jsonScript halfProgressBody)).api.printJob = ((600 : Nat) : CFloat) := by
  rw [timeLeftEstimate_eq, halfProgress_job.1, halfProgress_job.2, timeLeftValue_half]

/-- C13 (amended) at a print duration of 600: with progress 0.5 the time left
is 600; with progress 0.1, stored as the nearest `float`, the time left is
5400. -/
theorem getPrintJob_timeLeft_witness :
    ((1 / 2 : CFloat) > 0 ∧ 600 > 0
        ∧ (((getPrintJob (fixedLibrary halfProgressDocument) sampleApi
              (jsonScript halfProgressBody)).api.printJob.timeLeft : Nat) : Int)
          = truncate (roundF32 (roundF32 (roundF32 ((600 : Nat) : CFloat) / (1 / 2))
              - roundF32 ((600 : Nat) : CFloat)))
        ∧ (((getPrintJob (fixedLibrary halfProgressDocument) sampleApi
              (jsonScript halfProgressBody)).api.printJob.timeLeft : Nat) : Int) = 600)
      ∧ ((13421773 / 134217728 : CFloat) > 0
        ∧ (((getPrintJob (fixedLibrary tenthProgressDocument) sampleApi
              (jsonScript tenthProgressBody)).api.printJob.timeLeft : Nat) : Int)
          = truncate (roundF32
              (roundF32 (roundF32 ((600 : Nat) : CFloat) / (13421773 / 134217728))
                - roundF32 ((600 : Nat) : CFloat)))
        ∧ (((getPrintJob (fixedLibrary tenthProgressDocument) sampleApi
              (jsonScript tenthProgressBody)).api.printJob.timeLeft : Nat) : Int) = 5400) := by
  have hhalf := (getPrintJob_timeLeft (fixedLibrary halfProgressDocument) sampleApi
    (jsonScript halfProgressBody) (by decide) (by decide) ⟨by decide, rfl, rfl⟩).1
    (1 / 2) 600 halfProgress_job.1 halfProgress_job.2 (by norm_num) (by norm_num)
    (by rw [timeLeftValue_half, truncate_natCast]; norm_num)
    (by rw [timeLeftValue_half, truncate_natCast]; norm_num)
  have htenth := (getPrintJob_timeLeft (fixedLibrary tenthProgressDocument) sampleApi
    (jsonScript tenthProgressBody) (by decide) (by decide) ⟨by decide, rfl, rfl⟩).1
    (13421773 / 134217728) 600 tenthProgress_job.1 tenthProgress_job.2 (by norm_num)
    (by norm_num)
    (by rw [timeLeftValue_tenth, truncate_natCast]; norm_num)
    (by rw [timeLeftValue_tenth, truncate_natCast]; norm_num)
  refine ⟨⟨by norm_num, by norm_num, hhalf, ?_⟩, by norm_num, htenth, ?_⟩
  · rw [hhalf, timeLeftValue_half, truncate_natCast]
    rfl
  · rw [htenth, timeLeftValue_tenth, truncate_natCast]
    rfl

/-- C14 as stated fails: with progress 2 and a print duration of 600 the
guard `progress > 0 && printTime > 0` holds and the quantity
`(printTime / progress) - printTime` is -300. -/
theorem timeLeftEstimate_negative :
    timeLeftGuard (getPrintJob (fixedLibrary overProgressDocument) sampleApi
        (jsonScript overProgressBody)).api.printJob = true
      ∧ timeLeftEstimate (getPrintJob (fixedLibrary overProgressDocument) sampleApi
          (jsonScript overProgressBody)).api.printJob = -300
      ∧ ¬ (∀ job : PrintJobInfo, timeLeftGuard job = true → 0 ≤ timeLeftEstimate job) := by
  obtain ⟨-, hprogress, hprintTime⟩ := overProgress_job
  have hguard : timeLeftGuard (getPrintJob (fixedLibrary overProgressDocument) sampleApi
      (jsonScript overProgressBody)).api.printJob = true := by
    unfold timeLeftGuard
    rw [hprogress, hprintTime]
    norm_num
  have hestimate : timeLeftEstimate (getPrintJob (fixedLibrary overProgressDocument) sampleApi
      (jsonScript overProgressBody)).api.printJob = -300 := by
    rw [timeLeftEstimate_eq, hprogress, hprintTime, timeLeftValue_over]
    norm_num
  refine ⟨hguard, hestimate, fun h => ?_⟩
  have h0 := h _ hguard
  rw [hestimate] at h0
  norm_num at h0

/-- C14 (amended): whenever the guard `progress > 0 && printTime > 0` holds
and the progress is at most 1, the quantity
`(printTime / progress) - printTime` is not negative. -/
theorem timeLeftEstimate_nonneg (job : PrintJobInfo) (hguard : timeLeftGuard job = true)
    (hprogress : job.progress ≤ 1) : 0 ≤ timeLeftEstimate job := by
  simp only [timeLeftGuard, Bool.and_eq_true, decide_eq_true_eq] at hguard
  obtain ⟨hp, -⟩ := hguard
  rw [timeLeftEstimate_eq]
  have htime : (0 : CFloat) ≤ roundF32 (job.printTime : CFloat) :=
    roundF32_nonneg _ (by positivity)
  have hle : roundF32 (job.printTime : CFloat)
      ≤ roundF32 (job.printTime : CFloat) / job.progress := by
    rw [le_div_iff₀ hp]
    nlinarith
  have hquotient := le_roundF32 _ _ (roundF32_representable (job.printTime : CFloat)
    (by positivity)) hle
  exact roundF32_nonneg _ (sub_nonneg.mpr hquotient)

/-- C14 (amended) at the job snapshot after `halfProgressBody`: progress 0.5
and print time 600. -/
theorem timeLeftEstimate_nonneg_witness :
    timeLeftGuard (getPrintJob (fixedLibrary halfProgressDocument) sampleApi
        (jsonScript halfProgressBody)).api.printJob = true
      ∧ 0 ≤ timeLeftEstimate (getPrintJob (fixedLibrary halfProgressDocument) sampleApi
          (jsonScript halfProgressBody)).api.printJob :=
  have hguard : timeLeftGuard (getPrintJob (fixedLibrary halfProgressDocument) sampleApi
      (jsonScript halfProgressBody)).api.printJob = true := by
    unfold timeLeftGuard
    rw [halfProgress_job.1, halfProgress_job.2]
    norm_num
  ⟨hguard, timeLeftEstimate_nonneg _ hguard (by rw [halfProgress_job.1]; norm_num)⟩

/-! ### Printer statistics, field by field -/

lemma parseTemperatureData_null (lib : JsonLibrary) (tempData : TemperatureData) :
    parseTemperatureData lib Json.null tempData = tempData := by
  simp [parseTemperatureData, Json.containsKey]

lemma parseTemperatureData_eq (lib : JsonLibrary) (status : Json) (heater : Bytes)
    (tempData : TemperatureData) :
    parseTemperatureData lib (status.get heater).asObject tempData
      = projectedTemperature lib status heater tempData := by
  unfold parseTemperatureData projectedTemperature hasField fieldOf
  split_ifs <;> rfl

lemma projectToolhead_null (lib : JsonLibrary) (stats : PrinterStatistics) :
    projectToolhead lib Json.null stats = stats := by
  simp [projectToolhead, Json.containsKey]

lemma projectToolhead_eq (lib : JsonLibrary) (status : Json) (stats : PrinterStatistics) :
    projectToolhead lib (status.get "toolhead".toList).asObject stats
      = { stats with
          positionX :=
            if hasPosition status then
              lib.asFloat ((fieldOf status "toolhead".toList "position".toList).asArray.getD 0
                Json.null)
            else stats.positionX
          positionY :=
            if hasPosition status then
              lib.asFloat ((fieldOf status "toolhead".toList "position".toList).asArray.getD 1
                Json.null)
            else stats.positionY
          positionZ :=
            if hasPosition status then
              lib.asFloat ((fieldOf status "toolhead".toList "position".toList).asArray.getD 2
                Json.null)
            else stats.positionZ
          positionE :=
            if hasPosition status then
              lib.asFloat ((fieldOf status "toolhead".toList "position".toList).asArray.getD 3
                Json.null)
            else stats.positionE
          isHomed :=
            if hasField status "toolhead".toList "homed_axes".toList then
              decide
                (indexOf (lib.asString (fieldOf status "toolhead".toList "homed_axes".toList))
                    'x' 0 ≠ -1
                  ∧ indexOf
                    (lib.asString (fieldOf status "toolhead".toList "homed_axes".toList))
                    'y' 0 ≠ -1
                  ∧ indexOf
                    (lib.asString (fieldOf status "toolhead".toList "homed_axes".toList))
                    'z' 0 ≠ -1)
            else stats.isHomed } := by
  unfold projectToolhead hasPosition hasField fieldOf
  cases h1 : ((status.get "toolhead".toList).asObject).containsKey "position".toList <;>
    cases h2 : ((status.get "toolhead".toList).asObject).containsKey "homed_axes".toList <;>
    by_cases h3 :
      (((status.get "toolhead".toList).asObject).get "position".toList).asArray.length ≥ 4 <;>
    simp only [h3, Bool.false_eq_true, if_true, if_false, decide_True, decide_False,
      Bool.and_true, Bool.and_false, Bool.true_and, Bool.false_and]

lemma hasField_of_not_containsKey (status : Json) (object key : Bytes)
    (h : status.containsKey object = false) : hasField status object key = false := by
  unfold hasField
  rw [asObject_get_of_not_containsKey status object h]
  rfl

lemma projectedTemperature_of_not_containsKey (lib : JsonLibrary) (status : Json)
    (heater : Bytes) (tempData : TemperatureData) (h : status.containsKey heater = false) :
    projectedTemperature lib status heater tempData = tempData := by
  simp [projectedTemperature, hasField_of_not_containsKey status heater _ h]

/-- Every field of `printerStats` after the projection of a status object,
in terms of the keys the object carries. -/
lemma projectStatistics_fields (lib : JsonLibrary) (status : Json) (stats : PrinterStatistics) :
    projectStatistics lib status stats
      = { state :=
            if hasField status "print_stats".toList "state".toList then
              toCharArray (lib.asString (fieldOf status "print_stats".toList "state".toList)) 16
            else stats.state
          stateFlags :=
            if hasField status "print_stats".toList "state".toList then
              parsePrinterState
                (lib.asString (fieldOf status "print_stats".toList "state".toList))
                stats.stateFlags
            else stats.stateFlags
          extruder := projectedTemperature lib status "extruder".toList stats.extruder
          extruder1 := stats.extruder1
          heatedBed := projectedTemperature lib status "heater_bed".toList stats.heatedBed
          positionX :=
            if hasPosition status then
              lib.asFloat ((fieldOf status "toolhead".toList "position".toList).asArray.getD 0
                Json.null)
            else stats.positionX
          positionY :=
            if hasPosition status then
              lib.asFloat ((fieldOf status "toolhead".toList "position".toList).asArray.getD 1
                Json.null)
            else stats.positionY
          positionZ :=
            if hasPosition status then
              lib.asFloat ((fieldOf status "toolhead".toList "position".toList).asArray.getD 2
                Json.null)
            else stats.positionZ
          positionE :=
            if hasPosition status then
              lib.asFloat ((fieldOf status "toolhead".toList "position".toList).asArray.getD 3
                Json.null)
            else stats.positionE
          speedFactor :=
            if hasField status "gcode_move".toList "speed_factor".toList then
              toUInt16
                (floatMul
                  (lib.asFloat (fieldOf status "gcode_move".toList "speed_factor".toList))
                  (floatOfNat 100))
            else stats.speedFactor
          flowFactor :=
            if hasField status "gcode_move".toList "extrude_factor".toList then
              toUInt16
                (floatMul
                  (lib.asFloat (fieldOf status "gcode_move".toList "extrude_factor".toList))
                  (floatOfNat 100))
            else stats.flowFactor
          hasExtruder := if status.containsKey "extruder".toList then true else stats.hasExtruder
          hasExtruder1 := stats.hasExtruder1
          hasHeatedBed :=
            if status.containsKey "heater_bed".toList then true else stats.hasHeatedBed
          isHomed :=
            if hasField status "toolhead".toList "homed_axes".toList then
              decide
                (indexOf (lib.asString (fieldOf status "toolhead".toList "homed_axes".toList))
                    'x' 0 ≠ -1
                  ∧ indexOf
                    (lib.asString (fieldOf status "toolhead".toList "homed_axes".toList))
                    'y' 0 ≠ -1
                  ∧ indexOf
                    (lib.asString (fieldOf status "toolhead".toList "homed_axes".toList))
                    'z' 0 ≠ -1)
            else stats.isHomed
          reserved := stats.reserved } := by
  have hextruder : ∀ s : PrinterStatistics,
      (if status.containsKey "extruder".toList then
          { s with
            extruder := parseTemperatureData lib (status.get "extruder".toList).asObject
              s.extruder
            hasExtruder := true }
        else s)
        = { s with
            extruder := projectedTemperature lib status "extruder".toList s.extruder
            hasExtruder := if status.containsKey "extruder".toList then true
              else s.hasExtruder } := by
    intro s
    cases h : status.containsKey "extruder".toList
    · rw [projectedTemperature_of_not_containsKey lib status _ _ h]
      rfl
    · rw [parseTemperatureData_eq]
      rfl
  have hbed : ∀ s : PrinterStatistics,
      (if status.containsKey "heater_bed".toList then
          { s with
            heatedBed := parseTemperatureData lib (status.get "heater_bed".toList).asObject
              s.heatedBed
            hasHeatedBed := true }
        else s)
        = { s with
            heatedBed := projectedTemperature lib status "heater_bed".toList s.heatedBed
            hasHeatedBed := if status.containsKey "heater_bed".toList then true
              else s.hasHeatedBed } := by
    intro s
    cases h : status.containsKey "heater_bed".toList
    · rw [projectedTemperature_of_not_containsKey lib status _ _ h]
      rfl
    · rw [parseTemperatureData_eq]
      rfl
  have htoolhead : ∀ s : PrinterStatistics,
      (if status.containsKey "toolhead".toList then
          projectToolhead lib (status.get "toolhead".toList).asObject s
        else s)
        = projectToolhead lib (status.get "toolhead".toList).asObject s := by
    intro s
    cases h : status.containsKey "toolhead".toList
    · rw [asObject_get_of_not_containsKey status _ h, projectToolhead_null]
      rfl
    · rfl
  have hstate : ∀ s : PrinterStatistics,
      (if status.containsKey "print_stats".toList then
          if ((status.get "print_stats".toList).asObject).containsKey "state".toList then
            { s with
              state := toCharArray
                (lib.asString (((status.get "print_stats".toList).asObject).get
                  "state".toList)) 16
              stateFlags := parsePrinterState
                (lib.asString (((status.get "print_stats".toList).asObject).get
                  "state".toList)) s.stateFlags }
          else s
        else s)
        = { s with
            state :=
              if hasField status "print_stats".toList "state".toList then
                toCharArray
                  (lib.asString (fieldOf status "print_stats".toList "state".toList)) 16
              else s.state
            stateFlags :=
              if hasField status "print_stats".toList "state".toList then
                parsePrinterState
                  (lib.asString (fieldOf status "print_stats".toList "state".toList))
                  s.stateFlags
              else s.stateFlags } := by
    intro s
    cases h : status.containsKey "print_stats".toList
    · rw [hasField_of_not_containsKey status _ _ h]
      rfl
    · unfold hasField fieldOf
      cases h2 : ((status.get "print_stats".toList).asObject).containsKey "state".toList <;> rfl
  have hmove : ∀ s : PrinterStatistics,
      (if status.containsKey "gcode_move".toList then
          if ((status.get "gcode_move".toList).asObject).containsKey
              "extrude_factor".toList then
            { (if ((status.get "gcode_move".toList).asObject).containsKey
                  "speed_factor".toList then
                { s with
                  speedFactor := toUInt16
                    (floatMul
                      (lib.asFloat (((status.get "gcode_move".toList).asObject).get
                      "speed_factor".toList))
                      (floatOfNat 100)) }
              else s) with
              flowFactor := toUInt16
                (floatMul
                  (lib.asFloat (((status.get "gcode_move".toList).asObject).get
                  "extrude_factor".toList))
                  (floatOfNat 100)) }
          else
            (if ((status.get "gcode_move".toList).asObject).containsKey
                "speed_factor".toList then
              { s with
                speedFactor := toUInt16
                  (floatMul
                    (lib.asFloat (((status.get "gcode_move".toList).asObject).get
                    "speed_factor".toList))
                    (floatOfNat 100)) }
            else s)
        else s)
        = { s with
            speedFactor :=
              if hasField status "gcode_move".toList "speed_factor".toList then
                toUInt16
                  (floatMul
                    (lib.asFloat (fieldOf status "gcode_move".toList "speed_factor".toList))
                    (floatOfNat 100))
              else s.speedFactor
            flowFactor :=
              if hasField status "gcode_move".toList "extrude_factor".toList then
                toUInt16
                  (floatMul
                    (lib.asFloat (fieldOf status "gcode_move".toList "extrude_factor".toList))
                    (floatOfNat 100))
              else s.flowFactor } := by
    intro s
    cases h : status.containsKey "gcode_move".toList
    · rw [hasField_of_not_containsKey status _ _ h, hasField_of_not_containsKey status _ _ h]
      rfl
    · unfold hasField fieldOf
      cases h2 : ((status.get "gcode_move".toList).asObject).containsKey
          "speed_factor".toList <;>
        cases h3 : ((status.get "gcode_move".toList).asObject).containsKey
          "extrude_factor".toList <;> rfl
  unfold projectStatistics
  simp only []
  rw [hextruder, hbed, htoolhead, projectToolhead_eq, hstate, hmove]

/-! ### Last-known-value semantics -/

/-- A successful response makes `getPrinterStatistics` return `true` with
`printerStats` projected from the status object; nothing else changes but
the status code. -/
lemma getPrinterStatistics_of_successful (lib : JsonLibrary) (self : KlipperApi)
    (net : ClientScript) (hclient : self._client = true) (hconnect : net.connect = true)
    (hs : successful lib net) :
    (getPrinterStatistics lib self net).ok = true
      ∧ (getPrinterStatistics lib self net).api
          = { self with
              httpStatusCode := 200
              printerStats := projectStatistics lib (statusObject lib net) self.printerStats } := by
  obtain ⟨hstatus, hresult, hkey⟩ := hs
  have hbody : responseBody net ≠ [] := by
    intro h
    rw [h, lib.deserializeJson_nil] at hresult
    simp [Json.containsKey] at hresult
  obtain ⟨hresp, hapi⟩ := sendRequest_connected self net "GET".toList
    "/printer/objects/query?heater_bed&extruder&toolhead&print_stats&gcode_move".toList none
    hclient hconnect
  simp only [getPrinterStatistics, sendGetToMoonraker, hresp, hapi, hstatus, hresult, hkey,
    List.length_eq_zero, hbody, ne_eq, not_true_eq_false, or_self, if_false, Bool.not_true,
    Bool.false_eq_true, statusObject]
  exact ⟨trivial, trivial⟩

lemma projectStatistics_kept (lib : JsonLibrary) (status : Json) (stats : PrinterStatistics) :
    statisticsKept status stats (projectStatistics lib status stats) := by
  rw [projectStatistics_fields]
  unfold statisticsKept projectedTemperature hasPosition
  refine ⟨?_, ?_, ?_, ?_, ?_, ?_, ?_, ?_, ?_, ?_, ?_, ?_, ?_, rfl, rfl, rfl⟩ <;>
    intro h <;> simp_all

lemma projectJob_kept (lib : JsonLibrary) (status : Json) (job : PrintJobInfo) :
    jobKept status job (projectJob lib status job) := by
  rw [projectJob_fields]
  unfold jobKept projectedProgress
  refine ⟨?_, ?_, ?_, ?_, ?_, ?_, ?_, rfl⟩
  · intro h; simp_all
  · intro h; simp_all
  · intro h; simp_all [projectedPrintTime]
  · intro h; simp_all
  · intro h; simp_all
  · intro h; simp_all
  · intro h1 h2; simp_all

lemma projectJob_timeLeft_kept (lib : JsonLibrary) (status : Json) (job : PrintJobInfo)
    (hkeys : noTimeLeftKey status) (hsettled : timeLeftSettled job) :
    (projectJob lib status job).timeLeft = job.timeLeft := by
  obtain ⟨hprogress, hduration⟩ := hkeys
  rw [projectJob_fields]
  simp only [projectedProgress, projectedPrintTime, hprogress, hduration, Bool.false_eq_true,
    if_false]
  rcases hsettled with h | h
  · rw [if_neg]
    simpa [timeLeftGuard] using h
  · split_ifs
    · rw [h]
      rfl
    · rfl

lemma projectStatistics_of_noStatisticsKey (lib : JsonLibrary) (status : Json)
    (stats : PrinterStatistics) (h : noStatisticsKey status) :
    projectStatistics lib status stats = stats := by
  obtain ⟨h1, h2, h3, h4, h5⟩ := h
  simp only [projectStatistics, h1, h2, h3, h4, h5, Bool.false_eq_true, if_false]

lemma hasField_of_noJobKey (status : Json) (h : noJobKey status) : noTimeLeftKey status :=
  ⟨hasField_of_not_containsKey status _ _ h.2, hasField_of_not_containsKey status _ _ h.1⟩

lemma projectJob_of_noJobKey (lib : JsonLibrary) (status : Json) (job : PrintJobInfo)
    (h : noJobKey status) (hsettled : timeLeftSettled job) :
    projectJob lib status job = job := by
  have htime := projectJob_timeLeft_kept lib status job (hasField_of_noJobKey status h) hsettled
  obtain ⟨h1, h2⟩ := h
  have hrest : projectJob lib status job = calculateTimeLeft job := by
    simp only [projectJob, h1, h2, Bool.false_eq_true, if_false]
  rw [hrest] at htime ⊢
  rw [calculateTimeLeft_eq] at htime ⊢
  simp only at htime
  rw [htime]

/-- C15 as stated fails for `timeLeft`: a response whose status object holds
no key at all, received by a client whose job snapshot holds progress 0.5,
print time 600 and time left 0, changes the time left to 600. -/
theorem getPrintJob_recomputes_timeLeft :
    (getPrintJob (fixedLibrary (statusDocument [])) staleTimeLeftApi
        (jsonScript emptyStatusBody)).ok = true
      ∧ noJobKey (statusObject (fixedLibrary (statusDocument [])) (jsonScript emptyStatusBody))
      ∧ staleTimeLeftApi.printJob.timeLeft = 0
      ∧ (getPrintJob (fixedLibrary (statusDocument [])) staleTimeLeftApi
          (jsonScript emptyStatusBody)).api.printJob.timeLeft = 600 := by
  obtain ⟨hok, hapi⟩ := getPrintJob_of_successful (fixedLibrary (statusDocument []))
    staleTimeLeftApi (jsonScript emptyStatusBody) (by decide) (by decide) ⟨by decide, rfl, rfl⟩
  refine ⟨hok, ⟨rfl, rfl⟩, rfl, ?_⟩
  rw [hapi, projectJob_fields]
  have hprogress : projectedProgress (fixedLibrary (statusDocument []))
      (statusObject (fixedLibrary (statusDocument [])) (jsonScript emptyStatusBody))
      staleTimeLeftApi.printJob = 1 / 2 := rfl
  have htime : projectedPrintTime (fixedLibrary (statusDocument []))
      (statusObject (fixedLibrary (statusDocument [])) (jsonScript emptyStatusBody))
      staleTimeLeftApi.printJob = 600 := rfl
  simp only [hprogress, htime]
  rw [if_pos (by norm_num), floatTimeLeft_eq, timeLeftValue_half,
    toUInt32_natCast 600 (by norm_num)]

/-- C15 (amended): after a successful `getPrinterStatistics` or
`getPrintJob`, every snapshot field whose source key is absent from the
response has its old value, `printedBytes` included when neither `progress`
nor `file_size` is carried; the other snapshots are untouched; `timeLeft`
has its old value when neither `progress` nor `print_duration` is carried
and it agreed with the old progress and print time (the guard failed or it
was the calculated value).  So a response without a recognized key leaves
`printerStats` unchanged, and leaves `printJob` unchanged when `timeLeft`
agreed. -/
theorem projection_keeps_absent_fields (lib : JsonLibrary) (self : KlipperApi)
    (net : ClientScript) (hclient : self._client = true) (hconnect : net.connect = true)
    (hs : successful lib net) :
    statisticsKept (statusObject lib net) self.printerStats
        (getPrinterStatistics lib self net).api.printerStats
      ∧ (getPrinterStatistics lib self net).api.printJob = self.printJob
      ∧ (getPrinterStatistics lib self net).api.serverInfo = self.serverInfo
      ∧ jobKept (statusObject lib net) self.printJob (getPrintJob lib self net).api.printJob
      ∧ (noTimeLeftKey (statusObject lib net) → timeLeftSettled self.printJob →
          (getPrintJob lib self net).api.printJob.timeLeft = self.printJob.timeLeft)
      ∧ (getPrintJob lib self net).api.printerStats = self.printerStats
      ∧ (getPrintJob lib self net).api.serverInfo = self.serverInfo
      ∧ (noStatisticsKey (statusObject lib net) →
          (getPrinterStatistics lib self net).api.printerStats = self.printerStats)
      ∧ (noJobKey (statusObject lib net) → timeLeftSettled self.printJob →
          (getPrintJob lib self net).api.printJob = self.printJob) := by
  obtain ⟨-, hstats⟩ := getPrinterStatistics_of_successful lib self net hclient hconnect hs
  obtain ⟨-, hjob⟩ := getPrintJob_of_successful lib self net hclient hconnect hs
  rw [hstats, hjob]
  exact ⟨projectStatistics_kept lib _ _, rfl, rfl, projectJob_kept lib _ _,
    fun hkeys hsettled => projectJob_timeLeft_kept lib _ _ hkeys hsettled, rfl, rfl,
    fun hkeys => projectStatistics_of_noStatisticsKey lib _ _ hkeys,
    fun hkeys hsettled => projectJob_of_noJobKey lib _ _ hkeys hsettled⟩

/-- C15 (amended) at the response `{"result":{"status":{}}}` received by
`sampleApi`, whose time left agrees with its progress: both snapshots are
unchanged. -/
theorem projection_keeps_absent_fields_witness :
    noStatisticsKey (statusObject (fixedLibrary (statusDocument []))
        (jsonScript emptyStatusBody))
      ∧ noJobKey (statusObject (fixedLibrary (statusDocument [])) (jsonScript emptyStatusBody))
      ∧ timeLeftSettled sampleApi.printJob
      ∧ (getPrinterStatistics (fixedLibrary (statusDocument [])) sampleApi
          (jsonScript emptyStatusBody)).api.printerStats = sampleApi.printerStats
      ∧ (getPrintJob (fixedLibrary (statusDocument [])) sampleApi
          (jsonScript emptyStatusBody)).api.printJob = sampleApi.printJob :=
  have hsettled : timeLeftSettled sampleApi.printJob := Or.inl (by
    unfold timeLeftGuard
    have hp : sampleApi.printJob.progress = 0 := rfl
    rw [hp]
    simp)
  have h := projection_keeps_absent_fields (fixedLibrary (statusDocument [])) sampleApi
    (jsonScript emptyStatusBody) (by decide) (by decide) ⟨by decide, rfl, rfl⟩
  ⟨⟨rfl, rfl, rfl, rfl, rfl⟩, ⟨rfl, rfl⟩, hsettled,
    h.2.2.2.2.2.2.2.1 ⟨rfl, rfl, rfl, rfl, rfl⟩,
    h.2.2.2.2.2.2.2.2 ⟨rfl, rfl⟩ hsettled⟩

/-! ### Derived bytes and job flags -/

/-- C16 (the code departs from the claim): `printedBytes` is recalculated
only when the response carries `file_size`.  After a first response with
progress 0.25 and file size 1000 (`printedBytes` 250), a second response
that carries progress 0.5 alone leaves `printedBytes` at 250 although
progress times file size is now 500. -/
theorem getPrintJob_printedBytes_stale :
    (getPrintJob (fixedLibrary quarterProgressDocument) sampleApi
        (jsonScript quarterProgressBody)).api.printJob.printedBytes = 250
      ∧ (getPrintJob (fixedLibrary progressOnlyDocument)
          (getPrintJob (fixedLibrary quarterProgressDocument) sampleApi
            (jsonScript quarterProgressBody)).api (jsonScript progressOnlyBody)).ok = true
      ∧ (getPrintJob (fixedLibrary progressOnlyDocument)
          (getPrintJob (fixedLibrary quarterProgressDocument) sampleApi
            (jsonScript quarterProgressBody)).api
          (jsonScript progressOnlyBody)).api.printJob.progress = 1 / 2
      ∧ (getPrintJob (fixedLibrary progressOnlyDocument)
          (getPrintJob (fixedLibrary quarterProgressDocument) sampleApi
            (jsonScript quarterProgressBody)).api
          (jsonScript progressOnlyBody)).api.printJob.fileSize = 1000
      ∧ (getPrintJob (fixedLibrary progressOnlyDocument)
          (getPrintJob (fixedLibrary quarterProgressDocument) sampleApi
            (jsonScript quarterProgressBody)).api
          (jsonScript progressOnlyBody)).api.printJob.printedBytes = 250
      ∧ toUInt32 ((1 / 2 : CFloat) * ((1000 : Nat) : CFloat)) = 500 := by
  obtain ⟨-, hfirst⟩ := getPrintJob_of_successful (fixedLibrary quarterProgressDocument)
    sampleApi (jsonScript quarterProgressBody) (by decide) (by decide) ⟨by decide, rfl, rfl⟩
  have hclient : (getPrintJob (fixedLibrary quarterProgressDocument) sampleApi
      (jsonScript quarterProgressBody)).api._client = true := by
    rw [hfirst]
    rfl
  obtain ⟨hok, hsecond⟩ := getPrintJob_of_successful (fixedLibrary progressOnlyDocument)
    (getPrintJob (fixedLibrary quarterProgressDocument) sampleApi
      (jsonScript quarterProgressBody)).api (jsonScript progressOnlyBody) hclient (by decide)
    ⟨by decide, rfl, rfl⟩
  have h1000 : (fixedLibrary quarterProgressDocument).asUInt32 (Json.num 1000) = 1000 := by
    have h := fixedLibrary_asUInt32_natCast quarterProgressDocument 1000 (by norm_num)
    simpa using h
  have hbytes : (getPrintJob (fixedLibrary quarterProgressDocument) sampleApi
      (jsonScript quarterProgressBody)).api.printJob.printedBytes = 250 := by
    rw [hfirst, projectJob_fields]
    have hp : projectedProgress (fixedLibrary quarterProgressDocument)
        (statusObject (fixedLibrary quarterProgressDocument) (jsonScript quarterProgressBody))
        sampleApi.printJob = 1 / 4 := by
      rw [projectedProgress_of_field (fixedLibrary quarterProgressDocument)
        (statusObject (fixedLibrary quarterProgressDocument) (jsonScript quarterProgressBody))
        _ (Json.num (1 / 4)) rfl rfl, fixedLibrary_asFloat_num, roundF32_quarter]
    have hf : fieldOf
        (statusObject (fixedLibrary quarterProgressDocument) (jsonScript quarterProgressBody))
        "virtual_sdcard".toList "file_size".toList = Json.num 1000 := rfl
    have hc : hasField
        (statusObject (fixedLibrary quarterProgressDocument) (jsonScript quarterProgressBody))
        "virtual_sdcard".toList "file_size".toList = true := rfl
    simp only [hp, hf, hc, if_true, h1000]
    have h1 : ((1000 : Nat) : CFloat) = 1000 := by norm_num
    have h2 : (1 / 4 : CFloat) * 1000 = 250 := by norm_num
    have h3 : (250 : CFloat) = ((250 : Nat) : CFloat) := by norm_num
    rw [floatMul_natCast, h1, roundF32_1000, h2, roundF32_250, h3,
      toUInt32_natCast 250 (by norm_num)]
  have hsize : (getPrintJob (fixedLibrary quarterProgressDocument) sampleApi
      (jsonScript quarterProgressBody)).api.printJob.fileSize = 1000 := by
    rw [hfirst, projectJob_fields]
    exact h1000
  have hnosize : hasField
      (statusObject (fixedLibrary progressOnlyDocument) (jsonScript progressOnlyBody))
      "virtual_sdcard".toList "file_size".toList = false := rfl
  refine ⟨hbytes, hok, ?_, ?_, ?_, ?_⟩
  · rw [hsecond]
    simp only [projectJob_fields]
    rw [projectedProgress_of_field (fixedLibrary progressOnlyDocument)
      (statusObject (fixedLibrary progressOnlyDocument) (jsonScript progressOnlyBody)) _
      (Json.num (1 / 2)) rfl rfl, fixedLibrary_asFloat_num, roundF32_half]
  · rw [hsecond]
    simp only [projectJob_fields, hnosize, Bool.false_eq_true, if_false]
    exact hsize
  · rw [hsecond]
    simp only [projectJob_fields, hnosize, Bool.false_eq_true, if_false]
    exact hbytes
  · have hval : (1 / 2 : CFloat) * ((1000 : Nat) : CFloat) = ((500 : Nat) : CFloat) := by
      norm_num
    rw [hval, toUInt32_natCast 500 (by norm_num)]

/-- C17 (the code departs from the claim): `getPrintJob` compares the job
state label as it arrives.  The label `Printing` is recorded but sets none of
the five job flags, while `parsePrinterState` and a statistics refresh on the
same response, which lower-case the label, set `printing`. -/
theorem getPrintJob_flags_case_sensitive :
    (getPrintJob (fixedLibrary capitalStateDocument) sampleApi
        (jsonScript capitalStateBody)).ok = true
      ∧ (getPrintJob (fixedLibrary capitalStateDocument) sampleApi
          (jsonScript capitalStateBody)).api.printJob.state = "Printing".toList
      ∧ (getPrintJob (fixedLibrary capitalStateDocument) sampleApi
          (jsonScript capitalStateBody)).api.printJob.isPrinting = false
      ∧ (getPrintJob (fixedLibrary capitalStateDocument) sampleApi
          (jsonScript capitalStateBody)).api.printJob.five
          = [false, false, false, false, false]
      ∧ (parsePrinterState "Printing".toList sampleApi.printerStats.stateFlags).printing = true
      ∧ (getPrinterStatistics (fixedLibrary capitalStateDocument) sampleApi
          (jsonScript capitalStateBody)).api.printerStats.stateFlags.printing = true := by
  obtain ⟨hok, hapi⟩ := getPrintJob_of_successful (fixedLibrary capitalStateDocument)
    sampleApi (jsonScript capitalStateBody) (by decide) (by decide) ⟨by decide, rfl, rfl⟩
  obtain ⟨-, hstats⟩ := getPrinterStatistics_of_successful (fixedLibrary capitalStateDocument)
    sampleApi (jsonScript capitalStateBody) (by decide) (by decide) ⟨by decide, rfl, rfl⟩
  refine ⟨hok, ?_, ?_, ?_, by decide, ?_⟩
  · rw [hapi, projectJob_fields]
    decide
  · rw [hapi, projectJob_fields]
    decide
  · rw [hapi, projectJob_fields]
    decide
  · rw [hstats, projectStatistics_fields]
    decide

/-! ### Running a query twice -/

lemma sendRequest_not_connected (self : KlipperApi) (net : ClientScript)
    (method endpoint : Bytes) (data : Option Bytes)
    (h : ¬ (self._client = true ∧ net.connect = true)) :
    (sendRequestToMoonraker self net method endpoint data).response = []
      ∧ (sendRequestToMoonraker self net method endpoint data).api = self := by
  unfold sendRequestToMoonraker
  cases hc : self._client <;> cases hn : net.connect <;> simp_all

lemma setStatus_self (x : KlipperApi) (code : Int) (h : x.httpStatusCode = code) :
    { x with httpStatusCode := code } = x := by
  subst h
  rfl

lemma queryApi_idempotent (self : KlipperApi) (net : ClientScript) (success : Prop)
    [Decidable success] (update : KlipperApi → KlipperApi)
    (hclient : ∀ x, (update x)._client = x._client)
    (hstatus : ∀ x, (update x).httpStatusCode = x.httpStatusCode)
    (hidem : ∀ x, update (update x) = update x) :
    queryApi (queryApi self net success update) net success update
      = queryApi self net success update := by
  by_cases hconn : self._client = true ∧ net.connect = true
  · by_cases hs : success
    · have hfirst : queryApi self net success update
          = update { self with httpStatusCode := responseStatus net } := by
        simp only [queryApi, hconn, hs, and_self, if_true]
      have hconn2 : (update { self with httpStatusCode := responseStatus net })._client = true
          ∧ net.connect = true := by
        rw [hclient]
        exact hconn
      have hsame : { update { self with httpStatusCode := responseStatus net } with
            httpStatusCode := responseStatus net }
          = update { self with httpStatusCode := responseStatus net } :=
        setStatus_self _ _ (hstatus { self with httpStatusCode := responseStatus net })
      rw [hfirst]
      unfold queryApi
      rw [if_pos hconn2, if_pos hs, hsame, hidem]
    · have hfirst : queryApi self net success update
          = { self with httpStatusCode := responseStatus net } := by
        simp only [queryApi, hconn, hs, and_self, if_true, if_false]
      rw [hfirst]
      unfold queryApi
      rw [if_pos hconn, if_neg hs]
  · have hfirst : queryApi self net success update = self := by
      simp only [queryApi, hconn, if_false]
    rw [hfirst, hfirst]

lemma parsePrinterState_idempotent (stateStr : Bytes) (flags : PrinterStateFlags) :
    parsePrinterState stateStr (parsePrinterState stateStr flags)
      = parsePrinterState stateStr flags := by
  unfold parsePrinterState
  simp only []
  split_ifs <;> rfl

lemma projectedTemperature_idempotent (lib : JsonLibrary) (status : Json) (heater : Bytes)
    (tempData : TemperatureData) :
    projectedTemperature lib status heater (projectedTemperature lib status heater tempData)
      = projectedTemperature lib status heater tempData := by
  unfold projectedTemperature
  simp only [TemperatureData.mk.injEq]
  refine ⟨?_, ?_, ?_⟩ <;> split_ifs <;> rfl

lemma projectStatistics_idempotent (lib : JsonLibrary) (status : Json)
    (stats : PrinterStatistics) :
    projectStatistics lib status (projectStatistics lib status stats)
      = projectStatistics lib status stats := by
  rw [projectStatistics_fields lib status (projectStatistics lib status stats)]
  rw [projectStatistics_fields lib status stats]
  simp only [projectedTemperature_idempotent, PrinterStatistics.mk.injEq, true_and, and_true]
  refine ⟨?_, ?_, ?_, ?_, ?_, ?_, ?_, ?_, ?_, ?_, ?_⟩ <;> split_ifs <;>
    first
    | rfl
    | exact parsePrinterState_idempotent _ _

lemma projectedProgress_idempotent (lib : JsonLibrary) (status : Json) (job : PrintJobInfo) :
    projectedProgress lib status (projectJob lib status job)
      = projectedProgress lib status job := by
  rw [projectJob_fields]
  unfold projectedProgress
  split_ifs <;> rfl

lemma projectedPrintTime_idempotent (lib : JsonLibrary) (status : Json) (job : PrintJobInfo) :
    projectedPrintTime lib status (projectJob lib status job)
      = projectedPrintTime lib status job := by
  rw [projectJob_fields]
  unfold projectedPrintTime
  split_ifs <;> rfl

lemma projectJob_idempotent (lib : JsonLibrary) (status : Json) (job : PrintJobInfo) :
    projectJob lib status (projectJob lib status job) = projectJob lib status job := by
  rw [projectJob_fields lib status (projectJob lib status job)]
  rw [projectedProgress_idempotent, projectedPrintTime_idempotent]
  rw [projectJob_fields lib status job]
  simp only [PrintJobInfo.mk.injEq, true_and, and_true]
  refine ⟨?_, ?_, ?_, ?_, ?_, ?_, ?_, ?_, ?_, ?_, ?_⟩ <;> split_ifs <;> rfl

lemma responseBody_ne_nil (lib : JsonLibrary) (net : ClientScript) (key : Bytes)
    (h : (lib.deserializeJson (responseBody net)).containsKey key = true) :
    responseBody net ≠ [] := by
  intro hnil
  rw [hnil, lib.deserializeJson_nil] at h
  simp [Json.containsKey] at h

lemma getPrinterInfo_api (lib : JsonLibrary) (self : KlipperApi) (net : ClientScript) :
    (getPrinterInfo lib self net).api
      = queryApi self net (successfulResult lib net) (projectInfo lib (resultObject lib net)) := by
  unfold queryApi
  by_cases hconn : self._client = true ∧ net.connect = true
  · obtain ⟨hresp, hapi⟩ := sendRequest_connected self net "GET".toList "/printer/info".toList
      none hconn.1 hconn.2
    rw [if_pos hconn]
    by_cases hs : successfulResult lib net
    · rw [if_pos hs]
      have hbody := responseBody_ne_nil lib net _ hs.2
      simp only [getPrinterInfo, sendGetToMoonraker, hresp, hapi, hs.1, hs.2,
        List.length_eq_zero, hbody, ne_eq, not_true_eq_false, or_self, if_false, if_true]
      rfl
    · rw [if_neg hs]
      simp only [getPrinterInfo, sendGetToMoonraker, hresp, hapi]
      split_ifs with h1 h2 <;>
        first
        | rfl
        | (exfalso
           apply hs
           simp only [ne_eq, not_or, not_not] at h1
           exact ⟨h1.1, h2⟩)
  · obtain ⟨hresp, hapi⟩ := sendRequest_not_connected self net "GET".toList
      "/printer/info".toList none hconn
    rw [if_neg hconn]
    simp only [getPrinterInfo, sendGetToMoonraker, hresp, hapi, List.length_nil, or_true,
      if_true]

lemma getServerInfo_api (lib : JsonLibrary) (self : KlipperApi) (net : ClientScript) :
    (getServerInfo lib self net).api
      = queryApi self net (successfulResult lib net)
          (projectServer lib (resultObject lib net)) := by
  unfold queryApi
  by_cases hconn : self._client = true ∧ net.connect = true
  · obtain ⟨hresp, hapi⟩ := sendRequest_connected self net "GET".toList "/server/info".toList
      none hconn.1 hconn.2
    rw [if_pos hconn]
    by_cases hs : successfulResult lib net
    · rw [if_pos hs]
      have hbody := responseBody_ne_nil lib net _ hs.2
      simp only [getServerInfo, sendGetToMoonraker, hresp, hapi, hs.1, hs.2,
        List.length_eq_zero, hbody, ne_eq, not_true_eq_false, or_self, if_false, if_true]
      rfl
    · rw [if_neg hs]
      simp only [getServerInfo, sendGetToMoonraker, hresp, hapi]
      split_ifs with h1 h2 <;>
        first
        | rfl
        | (exfalso
           apply hs
           simp only [ne_eq, not_or, not_not] at h1
           exact ⟨h1.1, h2⟩)
  · obtain ⟨hresp, hapi⟩ := sendRequest_not_connected self net "GET".toList
      "/server/info".toList none hconn
    rw [if_neg hconn]
    simp only [getServerInfo, sendGetToMoonraker, hresp, hapi, List.length_nil, or_true,
      if_true]

lemma getPrinterStatistics_api (lib : JsonLibrary) (self : KlipperApi) (net : ClientScript) :
    (getPrinterStatistics lib self net).api
      = queryApi self net (successful lib net)
          (fun x => { x with
            printerStats := projectStatistics lib (statusObject lib net) x.printerStats }) := by
  unfold queryApi
  by_cases hconn : self._client = true ∧ net.connect = true
  · rw [if_pos hconn]
    by_cases hs : successful lib net
    · rw [if_pos hs, (getPrinterStatistics_of_successful lib self net hconn.1 hconn.2 hs).2,
        hs.1]
    · obtain ⟨hresp, hapi⟩ := sendRequest_connected self net "GET".toList
        "/printer/objects/query?heater_bed&extruder&toolhead&print_stats&gcode_move".toList
        none hconn.1 hconn.2
      rw [if_neg hs]
      simp only [getPrinterStatistics, sendGetToMoonraker, hresp, hapi]
      split_ifs with h1 h2
      · rfl
      · rfl
      · exfalso
        apply hs
        simp only [ne_eq, not_or, not_not, Bool.not_eq_true', Bool.not_eq_false] at h1 h2
        exact ⟨h1.1, by simpa using h2.1, by simpa using h2.2⟩
  · obtain ⟨hresp, hapi⟩ := sendRequest_not_connected self net "GET".toList
      "/printer/objects/query?heater_bed&extruder&toolhead&print_stats&gcode_move".toList
      none hconn
    rw [if_neg hconn]
    simp only [getPrinterStatistics, sendGetToMoonraker, hresp, hapi, List.length_nil, or_true,
      if_true]

lemma getPrintJob_api (lib : JsonLibrary) (self : KlipperApi) (net : ClientScript) :
    (getPrintJob lib self net).api
      = queryApi self net (successful lib net)
          (fun x => { x with
            printJob := projectJob lib (statusObject lib net) x.printJob }) := by
  unfold queryApi
  by_cases hconn : self._client = true ∧ net.connect = true
  · rw [if_pos hconn]
    by_cases hs : successful lib net
    · rw [if_pos hs, (getPrintJob_of_successful lib self net hconn.1 hconn.2 hs).2, hs.1]
    · obtain ⟨hresp, hapi⟩ := sendRequest_connected self net "GET".toList
        "/printer/objects/query?print_stats&virtual_sdcard".toList none hconn.1 hconn.2
      rw [if_neg hs]
      simp only [getPrintJob, sendGetToMoonraker, hresp, hapi]
      split_ifs with h1 h2
      · rfl
      · rfl
      · exfalso
        apply hs
        simp only [ne_eq, not_or, not_not, Bool.not_eq_true', Bool.not_eq_false] at h1 h2
        exact ⟨h1.1, by simpa using h2.1, by simpa using h2.2⟩
  · obtain ⟨hresp, hapi⟩ := sendRequest_not_connected self net "GET".toList
      "/printer/objects/query?print_stats&virtual_sdcard".toList none hconn
    rw [if_neg hconn]
    simp only [getPrintJob, sendGetToMoonraker, hresp, hapi, List.length_nil, or_true,
      if_true]

lemma projectInfo_idempotent (lib : JsonLibrary) (result : Json) (x : KlipperApi) :
    projectInfo lib result (projectInfo lib result x) = projectInfo lib result x := by
  unfold projectInfo
  simp only []
  split_ifs <;>
    first
    | rfl
    | simp only [parsePrinterState_idempotent]

lemma projectServer_idempotent (lib : JsonLibrary) (result : Json) (x : KlipperApi) :
    projectServer lib result (projectServer lib result x) = projectServer lib result x := by
  unfold projectServer
  split_ifs <;> rfl

/-- C18: for every library, client and script, running `getPrinterInfo`,
`getPrinterStatistics`, `getServerInfo` or `getPrintJob` a second time
against the same response leaves the object, every snapshot field included,
as the first run left it. -/
theorem query_twice (lib : JsonLibrary) (self : KlipperApi) (net : ClientScript) :
    (getPrinterInfo lib (getPrinterInfo lib self net).api net).api
        = (getPrinterInfo lib self net).api
      ∧ (getPrinterStatistics lib (getPrinterStatistics lib self net).api net).api
        = (getPrinterStatistics lib self net).api
      ∧ (getServerInfo lib (getServerInfo lib self net).api net).api
        = (getServerInfo lib self net).api
      ∧ (getPrintJob lib (getPrintJob lib self net).api net).api
        = (getPrintJob lib self net).api := by
  refine ⟨?_, ?_, ?_, ?_⟩
  · rw [getPrinterInfo_api lib (getPrinterInfo lib self net).api, getPrinterInfo_api lib self]
    refine queryApi_idempotent self net _ _ ?_ ?_ (projectInfo_idempotent lib _)
    · intro x
      unfold projectInfo
      split_ifs <;> rfl
    · intro x
      unfold projectInfo
      split_ifs <;> rfl
  · rw [getPrinterStatistics_api lib (getPrinterStatistics lib self net).api,
      getPrinterStatistics_api lib self]
    refine queryApi_idempotent self net _ _ (fun _ => rfl) (fun _ => rfl) ?_
    intro x
    simp only [projectStatistics_idempotent]
  · rw [getServerInfo_api lib (getServerInfo lib self net).api, getServerInfo_api lib self]
    refine queryApi_idempotent self net _ _ ?_ ?_ (projectServer_idempotent lib _)
    · intro x
      unfold projectServer
      split_ifs <;> rfl
    · intro x
      unfold projectServer
      split_ifs <;> rfl
  · rw [getPrintJob_api lib (getPrintJob lib self net).api, getPrintJob_api lib self]
    refine queryApi_idempotent self net _ _ (fun _ => rfl) (fun _ => rfl) ?_
    intro x
    simp only [projectJob_idempotent]

/-! ### Success of a query -/

/-- C19: `getPrinterStatistics` and `getPrintJob` return `true` exactly when
the status code after the request is 200, the returned body is not empty,
and the decoded body has a top-level `result` key that contains a `status`
key; nothing else of the response enters the result. -/
theorem query_ok_iff (lib : JsonLibrary) (self : KlipperApi) (net : ClientScript) :
    ((getPrinterStatistics lib self net).ok = true ↔
        (sendGetToMoonraker self net
          "/printer/objects/query?heater_bed&extruder&toolhead&print_stats&gcode_move".toList
            ).api.httpStatusCode = 200
          ∧ (sendGetToMoonraker self net
          "/printer/objects/query?heater_bed&extruder&toolhead&print_stats&gcode_move".toList
            ).response ≠ []
          ∧ (lib.deserializeJson (sendGetToMoonraker self net
          "/printer/objects/query?heater_bed&extruder&toolhead&print_stats&gcode_move".toList
            ).response).containsKey "result".toList = true
          ∧ ((lib.deserializeJson (sendGetToMoonraker self net
          "/printer/objects/query?heater_bed&extruder&toolhead&print_stats&gcode_move".toList
            ).response).get "result".toList).containsKey "status".toList = true)
      ∧ ((getPrintJob lib self net).ok = true ↔
        (sendGetToMoonraker self net
          "/printer/objects/query?print_stats&virtual_sdcard".toList).api.httpStatusCode = 200
          ∧ (sendGetToMoonraker self net
            "/printer/objects/query?print_stats&virtual_sdcard".toList).response ≠ []
          ∧ (lib.deserializeJson (sendGetToMoonraker self net
            "/printer/objects/query?print_stats&virtual_sdcard".toList).response).containsKey
              "result".toList = true
          ∧ ((lib.deserializeJson (sendGetToMoonraker self net
            "/printer/objects/query?print_stats&virtual_sdcard".toList).response).get
              "result".toList).containsKey "status".toList = true) := by
  constructor
  · simp only [getPrinterStatistics]
    split_ifs with h1 h2
    · simp only [Bool.false_eq_true, false_iff]
      rintro ⟨hs, hb, -, -⟩
      rcases h1 with h | h
      · exact h hs
      · exact hb (List.length_eq_zero.mp h)
    · simp only [Bool.false_eq_true, false_iff]
      rintro ⟨-, -, hr, hk⟩
      rcases h2 with h | h
      · rw [hr] at h
        simp at h
      · rw [hk] at h
        simp at h
    · simp only [true_iff]
      simp only [ne_eq, not_or, not_not, List.length_eq_zero] at h1 h2
      exact ⟨h1.1, h1.2, by simpa using h2.1, by simpa using h2.2⟩
  · simp only [getPrintJob]
    split_ifs with h1 h2
    · simp only [Bool.false_eq_true, false_iff]
      rintro ⟨hs, hb, -, -⟩
      rcases h1 with h | h
      · exact h hs
      · exact hb (List.length_eq_zero.mp h)
    · simp only [Bool.false_eq_true, false_iff]
      rintro ⟨-, -, hr, hk⟩
      rcases h2 with h | h
      · rw [hr] at h
        simp at h
      · rw [hk] at h
        simp at h
    · simp only [true_iff]
      simp only [ne_eq, not_or, not_not, List.length_eq_zero] at h1 h2
      exact ⟨h1.1, h1.2, by simpa using h2.1, by simpa using h2.2⟩

/-! ### Raw gcode -/

/-- C22 (the code departs from the claim): no constructor and no `init`
writes to `printerStats`, `printJob`, `serverInfo` or `motionLimits`; they
keep whatever the storage of the object held.  Built in storage that an
earlier use left non-zero, the object starts with a set `printing` flag, the
file name `old.gcode`, a time left of 42, the host name `old` and an axis
limit of 250. -/
theorem constructors_leave_snapshots :
    (∀ (storage : KlipperApi) (ip : IPAddress) (host : Option Bytes) (port : Nat)
        (key : Option Bytes),
        (KlipperApi.new storage).snapshots = storage.snapshots
          ∧ (KlipperApi.newIp storage ip port key).snapshots = storage.snapshots
          ∧ (KlipperApi.newHost storage host port key).snapshots = storage.snapshots
          ∧ (storage.initIp ip port key).snapshots = storage.snapshots
          ∧ (storage.initHost host port key).snapshots = storage.snapshots)
      ∧ (KlipperApi.newHost usedStorage (some "printer.local".toList) 7125
          none).printerStats.stateFlags.printing = true
      ∧ (KlipperApi.newHost usedStorage (some "printer.local".toList) 7125
          none).printJob.filename = "old.gcode".toList
      ∧ (KlipperApi.newHost usedStorage (some "printer.local".toList) 7125
          none).printJob.timeLeft = 42
      ∧ (KlipperApi.newHost usedStorage (some "printer.local".toList) 7125
          none).serverInfo.hostname = "old".toList
      ∧ (KlipperApi.newHost usedStorage (some "printer.local".toList) 7125
          none).motionLimits.xMax = 250
      ∧ (KlipperApi.new usedStorage).printJob.timeLeft = 42
      ∧ (KlipperApi.newIp usedStorage ⟨192, 168, 1, 20⟩ 7125 none).printJob.timeLeft = 42 :=
  ⟨fun _ _ _ _ _ => ⟨rfl, rfl, rfl, rfl, rfl⟩, rfl, rfl, rfl, rfl, rfl, rfl, rfl⟩

/-! ### Failed queries -/

/-- The request cycle leaves the snapshots as they were. -/
lemma sendGet_snapshots (self : KlipperApi) (net : ClientScript) (endpoint : Bytes) :
    (sendGetToMoonraker self net endpoint).api.printerStats = self.printerStats
      ∧ (sendGetToMoonraker self net endpoint).api.printJob = self.printJob
      ∧ (sendGetToMoonraker self net endpoint).api.serverInfo = self.serverInfo := by
  unfold sendGetToMoonraker
  rw [sendRequest_frame]
  exact ⟨rfl, rfl, rfl⟩

lemma getPrinterInfo_failure (lib : JsonLibrary) (self : KlipperApi) (net : ClientScript)
    (hfail : (getPrinterInfo lib self net).ok = false) :
    (getPrinterInfo lib self net).api
      = (sendGetToMoonraker self net "/printer/info".toList).api := by
  unfold getPrinterInfo at hfail ⊢
  simp only [] at hfail ⊢
  split_ifs at hfail ⊢ <;> rfl

lemma getServerInfo_failure (lib : JsonLibrary) (self : KlipperApi) (net : ClientScript)
    (hfail : (getServerInfo lib self net).ok = false) :
    (getServerInfo lib self net).api
      = (sendGetToMoonraker self net "/server/info".toList).api := by
  unfold getServerInfo at hfail ⊢
  simp only [] at hfail ⊢
  split_ifs at hfail ⊢ <;> rfl

lemma getPrinterStatistics_failure (lib : JsonLibrary) (self : KlipperApi)
    (net : ClientScript) (hfail : (getPrinterStatistics lib self net).ok = false) :
    (getPrinterStatistics lib self net).api
      = (sendGetToMoonraker self net
        "/printer/objects/query?heater_bed&extruder&toolhead&print_stats&gcode_move".toList
          ).api := by
  unfold getPrinterStatistics at hfail ⊢
  simp only [] at hfail ⊢
  split_ifs at hfail ⊢ <;> rfl

lemma getPrintJob_failure (lib : JsonLibrary) (self : KlipperApi) (net : ClientScript)
    (hfail : (getPrintJob lib self net).ok = false) :
    (getPrintJob lib self net).api
      = (sendGetToMoonraker self net
        "/printer/objects/query?print_stats&virtual_sdcard".toList).api := by
  unfold getPrintJob at hfail ⊢
  simp only [] at hfail ⊢
  split_ifs at hfail ⊢ <;> rfl

/-- C23: whenever `getPrinterInfo`, `getPrinterStatistics`, `getServerInfo`
or `getPrintJob` returns `false`, for whatever reason, `printerStats`,
`printJob` and `serverInfo` are what they were before the call. -/
theorem failed_query_keeps_snapshots
    (op : JsonLibrary → KlipperApi → ClientScript → Outcome) (hop : op ∈ queryOperations)
    (lib : JsonLibrary) (self : KlipperApi) (net : ClientScript)
    (hfail : (op lib self net).ok = false) :
    (op lib self net).api.printerStats = self.printerStats
      ∧ (op lib self net).api.printJob = self.printJob
      ∧ (op lib self net).api.serverInfo = self.serverInfo := by
  simp only [queryOperations, List.mem_cons, List.mem_singleton, List.not_mem_nil,
    or_false] at hop
  rcases hop with h | h | h | h <;> subst h
  · rw [getPrinterInfo_failure lib self net hfail]
    exact sendGet_snapshots self net _
  · rw [getPrinterStatistics_failure lib self net hfail]
    exact sendGet_snapshots self net _
  · rw [getServerInfo_failure lib self net hfail]
    exact sendGet_snapshots self net _
  · rw [getPrintJob_failure lib self net hfail]
    exact sendGet_snapshots self net _

/-- C23 at two failures on a client whose snapshots are not zero: a
`getPrintJob` answered 200 with the body `{}`, which lacks `result`, and a
`getPrinterInfo` answered `HTTP/1.1 404 Not Found`. -/
theorem failed_query_keeps_snapshots_witness :
    ((getPrintJob (fixedLibrary (Json.obj [])) staleTimeLeftApi
          (jsonScript emptyObjectBody)).ok = false
        ∧ (getPrintJob (fixedLibrary (Json.obj [])) staleTimeLeftApi
            (jsonScript emptyObjectBody)).api.printerStats = staleTimeLeftApi.printerStats
        ∧ (getPrintJob (fixedLibrary (Json.obj [])) staleTimeLeftApi
            (jsonScript emptyObjectBody)).api.printJob = staleTimeLeftApi.printJob
        ∧ (getPrintJob (fixedLibrary (Json.obj [])) staleTimeLeftApi
            (jsonScript emptyObjectBody)).api.serverInfo = staleTimeLeftApi.serverInfo)
      ∧ ((getPrinterInfo (fixedLibrary Json.null) staleTimeLeftApi notFoundScript).ok = false
        ∧ (getPrinterInfo (fixedLibrary Json.null) staleTimeLeftApi
            notFoundScript).api.printerStats = staleTimeLeftApi.printerStats
        ∧ (getPrinterInfo (fixedLibrary Json.null) staleTimeLeftApi
            notFoundScript).api.printJob = staleTimeLeftApi.printJob
        ∧ (getPrinterInfo (fixedLibrary Json.null) staleTimeLeftApi
            notFoundScript).api.serverInfo = staleTimeLeftApi.serverInfo) :=
  ⟨⟨by decide,
      failed_query_keeps_snapshots getPrintJob (by simp [queryOperations])
        (fixedLibrary (Json.obj [])) staleTimeLeftApi (jsonScript emptyObjectBody)
        (by decide)⟩,
    ⟨by decide,
      failed_query_keeps_snapshots getPrinterInfo (by simp [queryOperations])
        (fixedLibrary Json.null) staleTimeLeftApi notFoundScript (by decide)⟩⟩

end KlipperAPI
